import Mathlib

set_option maxRecDepth 100000

/-!
Verification development for the repository bootstrapper `init.js`
("Create GitHub Repository And Templates").

The program is a sequential orchestrator of external side effects (one
HTTPS request, shell commands, filesystem writes) gated by interactive
yes/no prompts.  We embed it shallowly: every source function becomes a
Lean function in explicit state-passing style over
  - a `World` of oracles (the environment token, the HTTP transport, the
    behaviour of spawned shell commands), and
  - a state `St` (pending stdin lines, the filesystem, and a trace of the
    observable effects performed so far).
Fallible code returns `Except Err`.  Strings are modelled by Lean
`String` (a packed `List Char`); JS `String.prototype.trim` is modelled
by the executable `trimS` below, and the two global placeholder
replacements of `createTemplateFile` by the executable `replaceAllS`.
-/

-- ================================================================================
-- String primitives
-- ================================================================================

/-- The apostrophe character, kept as a named constant because it occurs
inside several of the source's string literals. -/
def apos : String := "\x27"

/-- Whitespace as recognised by JS `String.prototype.trim` (the common
ASCII cases; the program only ever trims command output and stdin lines). -/
def isWsp (c : Char) : Bool := c = ' ' || c = '\n' || c = '\t' || c = '\r'

/-- Trim on character lists: drop whitespace from both ends. -/
def trimL (s : List Char) : List Char :=
  ((s.dropWhile isWsp).reverse.dropWhile isWsp).reverse

/-- Model of JS `String.prototype.trim`. -/
def trimS (s : String) : String := ⟨trimL s.data⟩

/-- Does `pat` occur as a contiguous substring of `s`?  (Executable;
`occursSub pat s = true` iff `pat` is an infix of `s`.) -/
def occursSub (pat : List Char) : List Char → Bool
  | [] => pat.isEmpty
  | c :: rest => pat.isPrefixOf (c :: rest) || occursSub pat rest

/-- The dollar character, which opens the replacement-text escape
sequences of JS `String.prototype.replace`. -/
def dollarChar : Char := '$'

/-- The ampersand character (a dollar followed by it inserts the matched
substring). -/
def amperChar : Char := '&'

/-- The backquote character, code point 96 (a dollar followed by it
inserts the portion of the subject string preceding the match). -/
def backquoteChar : Char := Char.ofNat 96

/-- The apostrophe character, code point 39 (a dollar followed by it
inserts the portion of the subject string following the match). -/
def aposChar : Char := Char.ofNat 39

/-- `true` iff the list contains no dollar character.  Replacement values
with this property are inserted verbatim by JS `replace`. -/
def noDollar (s : List Char) : Bool := s.all (fun c => c != dollarChar)

/-- ECMAScript GetSubstitution for a string replacement value against a
regular expression with no capture groups (the only shape the program
uses: the two global literal token patterns of `createTemplateFile`).  A
doubled dollar yields a single dollar; dollar-ampersand the matched
substring; dollar-backquote the portion of the subject before the match;
dollar-apostrophe the portion after it; any other dollar (including a
dollar followed by a digit, which names a nonexistent capture group, or
by an angle bracket, with no named groups present) is kept literally. -/
def expandRepl (matched before after : List Char) : List Char → List Char
  | [] => []
  | c :: rest =>
      if c = dollarChar then
        match rest with
        | [] => [c]
        | d :: rest2 =>
            if d = dollarChar then d :: expandRepl matched before after rest2
            else if d = amperChar then
              matched ++ expandRepl matched before after rest2
            else if d = backquoteChar then
              before ++ expandRepl matched before after rest2
            else if d = aposChar then
              after ++ expandRepl matched before after rest2
            else c :: d :: expandRepl matched before after rest2
      else c :: expandRepl matched before after rest

/-- Fuel-indexed worker for global substring replacement.  Scans left to
right; `pre` is the reversed portion of the subject already consumed, so
that on a match the dollar escapes of the replacement text can be
expanded against the match position (`pre.reverse` is the portion of the
subject preceding the match and the remainder after the consumed pattern
the portion following it).  A match consumes the whole matched pattern
(JS `String.prototype.replace` with a global regex of a literal pattern
does not rescan the replacement text in the same pass).  The fuel is
only a termination device: `s.length` steps always suffice. -/
def rAux (pat rep : List Char) : Nat → List Char → List Char → List Char
  | _, _, [] => []
  | 0, _, s => s
  | Nat.succ n, pre, c :: rest =>
      match pat.isPrefixOf (c :: rest), pat with
      | true, _ :: patRest =>
          expandRepl pat pre.reverse (rest.drop patRest.length) rep
            ++ rAux pat rep n (pat.reverse ++ pre) (rest.drop patRest.length)
      | _, _ => c :: rAux pat rep n (c :: pre) rest

/-- Global replacement of the literal pattern `pat` by the replacement
text `rep` in `s`.  Models JS `s.replace(/pat/g, rep)` for a literal
(metacharacter-free) pattern with no capture groups, including the
GetSubstitution treatment of dollar escapes in `rep`. -/
def replaceAllL (pat rep s : List Char) : List Char := rAux pat rep s.length [] s

/-- Proof-staging variant of `rAux` that inserts the replacement text
verbatim.  It agrees with `rAux` whenever the replacement contains no
dollar character, or no match ever occurs (bridging lemmas below). -/
def rAuxLit (pat rep : List Char) : Nat → List Char → List Char
  | _, [] => []
  | 0, s => s
  | Nat.succ n, c :: rest =>
      match pat.isPrefixOf (c :: rest), pat with
      | true, _ :: patRest => rep ++ rAuxLit pat rep n (rest.drop patRest.length)
      | _, _ => c :: rAuxLit pat rep n rest

/-- Verbatim-insertion counterpart of `replaceAllL`, used to stage the
proofs about dollar-free replacement values. -/
def replaceAllLit (pat rep s : List Char) : List Char := rAuxLit pat rep s.length s

/-- String-level wrapper of `replaceAllL`, argument order of
JS `s.replace(pat, rep)`. -/
def replaceAllS (s pat rep : String) : String :=
  ⟨replaceAllL pat.data rep.data s.data⟩

/-- Characters that may appear in a placeholder token (`A`–`Z` and `_`).
Used to rule out token occurrences spanning a substitution boundary. -/
def tokChar (c : Char) : Bool :=
  (65 ≤ c.toNat && c.toNat ≤ 90) || c.toNat = 95

-- ================================================================================
-- Path model
-- ================================================================================

/-- Model of Node `path.join` for the two-argument uses in the source
(first argument `subDirectory ?? ''`). -/
def pathJoin (a b : String) : String := if a = "" then b else a ++ "/" ++ b

/-- Model of Node `path.resolve base rel` for an absolute `base` and a
plain relative `rel` (the only shapes the program produces; `..` segments
and absolute second arguments are not modelled). -/
def pathResolve (base relPath : String) : String :=
  if relPath = "" then base else base ++ "/" ++ relPath

-- ================================================================================
-- Effects, errors, world and state
-- ================================================================================

/-- Observable effects, recorded in order.  The `enter…` markers record
that a component function was invoked (used by the temporal claims);
the others are the primitive side effects. -/
inductive Effect where
  | promptE (message : String)
  | httpE (url : String)
  | execE (command cwd : String)
  | writeE (filePath content : String)
  | mkdirE (dirPath : String)
  | enterCreateGitHubRepositoryE
  | enterGitCloneE
  | enterChangeGitConfigE
  | enterCreateTemplateFileE (fileName : String)
deriving DecidableEq, Repr

/-- Values thrown by the program.
`stderrResult` is the structured `{ stdout, stderr }` object thrown by
`executeCommand` (both fields trimmed); `processFailure` is a rejection
of `execAsync` itself (non-zero exit), which in Node carries the raw,
untrimmed streams as `.stdout`/`.stderr` properties; the `invalid…`
constructors are the two validation `Error`s (no stream fields);
`cloneDirMissing` is the `Error` thrown when the repository directory is
still absent after cloning; `httpError`/`jsonParseError` stand for a
transport failure (or 10s timeout) of `request` and a `JSON.parse`
failure on the response body. -/
inductive Err where
  | invalidCommandArgument
  | invalidCwdArgument
  | stderrResult (stdout stderr : String)
  | processFailure (stdout stderr : String)
  | httpError
  | jsonParseError
  | cloneDirMissing
deriving DecidableEq, Repr

/-- Outcome of running a shell command: `success` if the process exited
with code 0 (raw captured streams), `failure` if `execAsync` rejected
(raw captured streams of the rejection error). -/
inductive ExecOutcome where
  | success (stdout stderr : String)
  | failure (stdout stderr : String)
deriving DecidableEq, Repr

/-- The environment the program runs against. `execDirs` gives the
directories that exist after a given command ran (e.g. `git clone`
creating the repository directory). -/
structure World where
  ghToken : Option String
  http : String → Option String
  jsonParses : String → Bool
  exec : String → String → ExecOutcome
  execDirs : String → String → List String
  home : String

/-- Mutable state: pending stdin lines, the filesystem (directories and
file contents), and the effect trace. -/
structure St where
  inputs : List String
  dirs : List String
  files : List (String × String)
  trace : List Effect
deriving DecidableEq, Repr

/-- Append one effect to the trace. -/
def emit (e : Effect) (st : St) : St := { st with trace := st.trace ++ [e] }

/-- Model of `isFileExist` (`fs.stat` succeeding): the path is a known
directory or a known file. -/
def fsStat (st : St) (filePath : String) : Bool :=
  st.dirs.contains filePath || st.files.any (fun kv => kv.1 == filePath)

/-- Model of `fs.writeFile`: overwrite without backup. -/
def fsWriteFile (filePath content : String) (st : St) : St :=
  { st with
      files := (filePath, content) :: st.files.filter (fun kv => kv.1 != filePath),
      trace := st.trace ++ [.writeE filePath content] }

/-- Model of `fs.mkdir { recursive: true }` (parent creation is not
tracked; no claim depends on it). -/
def fsMkdir (dirPath : String) (st : St) : St :=
  { st with dirs := dirPath :: st.dirs, trace := st.trace ++ [.mkdirE dirPath] }

/-- Content of a file, if present. -/
def fsRead (st : St) (filePath : String) : Option String :=
  (st.files.find? (fun kv => kv.1 == filePath)).map (fun kv => kv.2)

-- ================================================================================
-- Utils of the source (`readText`, `executeCommand`)
-- ================================================================================

/-- `readText`: prompt, consume one stdin line, return it trimmed.  With
no pending input the real program would block; we model that run as
yielding the empty (hence non-affirmative) answer. -/
def readText (message : String) (st : St) : String × St :=
  match st.inputs with
  | [] => ("", emit (.promptE message) st)
  | line :: rest => (trimS line, emit (.promptE message) { st with inputs := rest })

/-- `executeCommand`: validate both arguments (the `isString` half of the
source's check is enforced by typing here), run the command under a
shell, trim both captured streams, throw the structured
`{ stdout, stderr }` object when the trimmed stderr is non-empty, and
return the trimmed pair otherwise.  A rejection of `execAsync` itself
surfaces as `Err.processFailure` with the raw streams. -/
def executeCommand (w : World) (command cwd : String) (st : St) :
    Except Err (String × String) × St :=
  if trimS command = "" then (.error .invalidCommandArgument, st)
  else if trimS cwd = "" then (.error .invalidCwdArgument, st)
  else
    let st := emit (.execE command cwd) st
    let st := { st with dirs := st.dirs ++ w.execDirs command cwd }
    match w.exec command cwd with
    | .failure stdout stderr => (.error (.processFailure stdout stderr), st)
    | .success stdout stderr =>
        if trimS stderr = "" then (.ok (trimS stdout, trimS stderr), st)
        else (.error (.stderrResult (trimS stdout) (trimS stderr)), st)

-- ================================================================================
-- Functions of the source
-- ================================================================================

/-- The fixed creation endpoint. -/
def createRepoUrl : String := "https://api.github.com/user/repos"

/-- `createGitHubRepository`: skip with a notice when no token is
present; otherwise POST to the fixed endpoint (the request body payload
is not inspected by any claim and is not modelled) and parse the JSON
response, which is only logged. -/
def createGitHubRepository (w : World) (repositoryName description : String)
    (st : St) : Except Err Unit × St :=
  let st := emit .enterCreateGitHubRepositoryE st
  match w.ghToken with
  | none => (.ok (), st)
  | some _ =>
      let st := emit (.httpE createRepoUrl) st
      match w.http createRepoUrl with
      | none => (.error .httpError, st)
      | some data =>
          if w.jsonParses data then (.ok (), st) else (.error .jsonParseError, st)

/-- The clone command of `gitClone` (source line 175). -/
def gitCloneCommand (repositoryName : String) : String :=
  "git clone " ++ apos ++ "https://Neos21@github.com/Neos21/" ++ repositoryName
    ++ ".git" ++ apos

/-- The benign diagnostic tolerated by the cloner (source line 178). -/
def cloningInto (repositoryName : String) : String :=
  "Cloning into " ++ apos ++ repositoryName ++ apos ++ "..."

/-- The `.stdout` property of a thrown value, `none` when the field is
absent (JS `undefined`). -/
def errStdout : Err → Option String
  | .stderrResult stdout _ => some stdout
  | .processFailure stdout _ => some stdout
  | _ => none

/-- The `.stderr` property of a thrown value, `none` when absent. -/
def errStderr : Err → Option String
  | .stderrResult _ stderr => some stderr
  | .processFailure _ stderr => some stderr
  | _ => none

/-- The rethrow condition of `gitClone`'s catch block (source line 178):
`error.stdout !== '' || error.stderr !== `Cloning into '<name>'...``,
where an absent field (`undefined`) differs from any string. -/
def cloneRethrows (repositoryName : String) (e : Err) : Bool :=
  errStdout e != some "" || errStderr e != some (cloningInto repositoryName)

/-- `gitClone`: skip with success when the repository directory exists;
otherwise confirm (decline returns the do-not-proceed signal `false`),
run the clone command tolerating only the benign diagnostic, and then
require the repository directory to exist. -/
def gitClone (w : World) (repositoryName ghRootDirectoryPath ghRepoDirectoryPath : String)
    (st : St) : Except Err Bool × St :=
  let st := emit .enterGitCloneE st
  if fsStat st ghRepoDirectoryPath then (.ok true, st)
  else
    let (answer, st) := readText "  Clone Repo?" st
    if answer ≠ "y" then (.ok false, st)
    else
      match executeCommand w (gitCloneCommand repositoryName) ghRootDirectoryPath st with
      | (.ok _, st) =>
          if fsStat st ghRepoDirectoryPath then (.ok true, st)
          else (.error .cloneDirMissing, st)
      | (.error e, st) =>
          if cloneRethrows repositoryName e then (.error e, st)
          else if fsStat st ghRepoDirectoryPath then (.ok true, st)
          else (.error .cloneDirMissing, st)

/-- The three identity commands of `changeGitConfig`. -/
def gitConfigNameCommand : String :=
  "git config user.name " ++ apos ++ "Neos21" ++ apos

def gitConfigEmailCommand : String :=
  "git config user.email " ++ apos ++ "neos21@gmail.com" ++ apos

def gitConfigListCommand : String :=
  "git config --local --list | grep -e " ++ apos ++ "user" ++ apos

/-- `changeGitConfig`: confirm (decline skips silently), then run the two
configuration commands and the read-back command, in order, propagating
any failure. -/
def changeGitConfig (w : World) (ghRepoDirectoryPath : String) (st : St) :
    Except Err Unit × St :=
  let st := emit .enterChangeGitConfigE st
  let (answer, st) := readText "  Change Git Config?" st
  if answer ≠ "y" then (.ok (), st)
  else
    match executeCommand w gitConfigNameCommand ghRepoDirectoryPath st with
    | (.error e, st) => (.error e, st)
    | (.ok _, st) =>
        match executeCommand w gitConfigEmailCommand ghRepoDirectoryPath st with
        | (.error e, st) => (.error e, st)
        | (.ok _, st) =>
            match executeCommand w gitConfigListCommand ghRepoDirectoryPath st with
            | (.error e, st) => (.error e, st)
            | (.ok _, st) => (.ok (), st)

-- ================================================================================
-- Template definitions
-- ================================================================================

/-- One template file definition. -/
structure TemplateFile where
  fileName : String
  content : String
  subDirectory : Option String := none
deriving DecidableEq, Repr

/-- The repository-name placeholder token. -/
def tokRepo : String := "__REPOSITORY_NAME__"

/-- The description placeholder token. -/
def tokDesc : String := "__DESCRIPTION__"

def gitignoreContent : String := ".DS_Store\nThumbs.db\n\nnode_modules/\n"

def readmeContent : String :=
  "# __DESCRIPTION__\n\n__DESCRIPTION__\n\n\n## Links\n\n- [Neo" ++ apos
    ++ "s World](https://neos21.net/)\n"

def fundingContent : String :=
  "github: Neos21\ncustom:\n  - " ++ apos ++ "https://neos21.net/" ++ apos ++ "\n"

def packageJsonContent : String :=
  "\x7b\n  \"name\": \"__REPOSITORY_NAME__\",\n  \"description\": \"__DESCRIPTION__\",\n  \"private\": true,\n  \"scripts\": \x7b\n    \"start\": \"node ./index.js\"\n  \x7d,\n  \"author\": \"Neo <neos21@gmail.com> (https://neos21.net/)\",\n  \"license\": \"MIT\",\n  \"homepage\": \"https://github.com/Neos21/__REPOSITORY_NAME__#readme\",\n  \"repository\": \x7b\n    \"type\": \"git\",\n    \"url\": \"git+https://github.com/Neos21/__REPOSITORY_NAME__.git\"\n  \x7d,\n  \"bugs\": \x7b\n    \"url\": \"https://github.com/Neos21/__REPOSITORY_NAME__/issues\"\n  \x7d,\n  \"funding\": \x7b\n    \"type\": \"github\",\n    \"url\": \"https://github.com/sponsors/Neos21\"\n  \x7d\n\x7d\n"

/-- The fixed list of template file definitions, in source order. -/
def templateFiles : List TemplateFile :=
  [ { fileName := ".gitignore", content := gitignoreContent },
    { fileName := "README.md", content := readmeContent },
    { fileName := "FUNDING.yml", content := fundingContent, subDirectory := some ".github" },
    { fileName := "package.json", content := packageJsonContent },
    { fileName := ".nojekyll", content := "" } ]

/-- The placeholder substitution of `createTemplateFile` (source lines
286–288): replace every occurrence of the repository-name token, then
every occurrence of the description token. -/
def replacedContent (content repositoryName description : String) : String :=
  replaceAllS (replaceAllS content tokRepo repositoryName) tokDesc description

/-- `createTemplateFile`: confirm (with an overwrite phrasing when the
destination already exists; decline cancels this file only), substitute
both placeholder tokens, create the subdirectory when one is declared
(the source tests JS truthiness, so an empty-string subdirectory takes
the no-subdirectory branch), and write the file. -/
def createTemplateFile (templateFile : TemplateFile)
    (ghRepoDirectoryPath repositoryName description : String) (st : St) :
    Except Err Unit × St :=
  let st := emit (.enterCreateTemplateFileE templateFile.fileName) st
  let subDir := templateFile.subDirectory.getD ""
  let fileRelativePath := pathJoin subDir templateFile.fileName
  let confirmMessage :=
    if fsStat st (pathResolve ghRepoDirectoryPath fileRelativePath) then
      "The File [" ++ fileRelativePath ++ "] Is Already Exist. Overwrite It?"
    else
      "Create [" ++ fileRelativePath ++ "]?"
  let (answer, st) := readText confirmMessage st
  if answer ≠ "y" then (.ok (), st)
  else
    let newContent := replacedContent templateFile.content repositoryName description
    if subDir ≠ "" then
      let st := fsMkdir (pathResolve ghRepoDirectoryPath subDir) st
      let st := fsWriteFile
        (pathResolve (pathResolve ghRepoDirectoryPath subDir) templateFile.fileName)
        newContent st
      (.ok (), st)
    else
      let st := fsWriteFile (pathResolve ghRepoDirectoryPath templateFile.fileName)
        newContent st
      (.ok (), st)

-- ================================================================================
-- Main
-- ================================================================================

-- ================================================================================
-- Derived definitions used by the claims
-- ================================================================================

/-- The resolved root directory of a run (the `ghRootDirectoryPath` of
`main`): the fourth positional argument when present and non-empty
(JS truthiness), else the platform default under the home directory. -/
def ghRootOf (w : World) (argv : List String) : String :=
  match argv.get? 4 with
  | some p => if p = "" then pathResolve w.home "Documents/Dev/GitHub" else p
  | none => pathResolve w.home "Documents/Dev/GitHub"

/-- The resolved repository directory of a run (the
`ghRepoDirectoryPath` of `main`). -/
def ghRepoOf (w : World) (argv : List String) : String :=
  pathResolve (ghRootOf w argv) ((argv.get? 5).getD (trimS ((argv.get? 2).getD "")))

/-- Does `createGitHubRepository` run to completion in environment `w`?
(Its outcome depends only on the world: token absent, or the request
succeeds and its body parses.) -/
def creatorOk (w : World) : Bool :=
  match w.ghToken with
  | none => true
  | some _ =>
      match w.http createRepoUrl with
      | none => false
      | some data => w.jsonParses data

/-- Effects that touch the outside world: remote calls, process
executions, filesystem writes. -/
def isExternalEffect : Effect → Bool
  | .httpE _ => true
  | .execE _ _ => true
  | .writeE _ _ => true
  | .mkdirE _ => true
  | _ => false

def isPromptEffect : Effect → Bool
  | .promptE _ => true
  | _ => false

def isExecEffect : Effect → Bool
  | .execE _ _ => true
  | _ => false

def isWriteEffect : Effect → Bool
  | .writeE _ _ => true
  | _ => false

def isEnterChangeGitConfig : Effect → Bool
  | .enterChangeGitConfigE => true
  | _ => false

def isEnterCreateTemplateFile : Effect → Bool
  | .enterCreateTemplateFileE _ => true
  | _ => false

/-- Effects `createGitHubRepository` may emit. -/
def creatorEffect : Effect → Bool
  | .enterCreateGitHubRepositoryE => true
  | .httpE _ => true
  | _ => false

/-- The file name carried by a template-materialisation marker. -/
def templateMarkerName : Effect → Option String
  | .enterCreateTemplateFileE fileName => some fileName
  | _ => none

/-- The empty starting state used by witnesses. -/
def stEmpty : St := { inputs := [], dirs := [], files := [], trace := [] }

/-- A tokenless environment whose commands all behave as `outcome` and
create no directory; used by witnesses. -/
def mkWorld (outcome : ExecOutcome) : World :=
  { ghToken := none
    http := fun _ => some "\x7b\x7d"
    jsonParses := fun _ => true
    exec := fun _ _ => outcome
    execDirs := fun _ _ => []
    home := "/root" }

/-- A concrete environment used by witnesses: no token, an HTTP
transport that answers with an empty object, commands that succeed
silently and produce the demo repository directory. -/
def wDemo : World :=
  { ghToken := none
    http := fun _ => some "\x7b\x7d"
    jsonParses := fun _ => true
    exec := fun _ _ => .success "" ""
    execDirs := fun _ _ => ["/gh/demo"]
    home := "/root" }


/-- The template loop of `main` (source lines 345–348). -/
def runTemplates (tfs : List TemplateFile)
    (ghRepoDirectoryPath repositoryName description : String) (st : St) :
    Except Err Unit × St :=
  match tfs with
  | [] => (.ok (), st)
  | tf :: rest =>
      match createTemplateFile tf ghRepoDirectoryPath repositoryName description st with
      | (.error e, st) => (.error e, st)
      | (.ok _, st) => runTemplates rest ghRepoDirectoryPath repositoryName description st

/-- The orchestrator (the body of the source's async IIFE, up to logging).
`argv` is the full `process.argv` (interpreter and script path first).
The returned `Except` is what the top-level catch would log; `.ok` runs
end without error.  Single argv paths are taken as already absolute. -/
def mainRun (w : World) (argv : List String) (st : St) : Except Err Unit × St :=
  if argv.length < 4 then (.ok (), st)
  else
    let repositoryName := trimS ((argv.get? 2).getD "")
    let description := trimS ((argv.get? 3).getD "")
    let ghRootDirectoryPath := ghRootOf w argv
    let ghRepoDirectoryPath := ghRepoOf w argv
    let (answer, st) := readText "Start?" st
    if answer ≠ "y" then (.ok (), st)
    else
      match createGitHubRepository w repositoryName description st with
      | (.error e, st) => (.error e, st)
      | (.ok _, st) =>
          match gitClone w repositoryName ghRootDirectoryPath ghRepoDirectoryPath st with
          | (.error e, st) => (.error e, st)
          | (.ok proceed, st) =>
              if proceed then
                match changeGitConfig w ghRepoDirectoryPath st with
                | (.error e, st) => (.error e, st)
                | (.ok _, st) =>
                    runTemplates templateFiles ghRepoDirectoryPath repositoryName
                      description st
              else (.ok (), st)

/-- Is the last character (if any) safe, i.e. not a placeholder-token
character?  Safe boundaries rule out token occurrences spanning a
substitution splice from the left. -/
def lastSafe (a : List Char) : Bool :=
  match a.getLast? with
  | none => true
  | some c => !tokChar c

/-- Is the first character (if any) not a placeholder-token character? -/
def headSafe (t : List Char) : Bool :=
  match t.head? with
  | none => true
  | some c => !tokChar c


/-- The readme template after its second placeholder. -/
def readmeTail : String :=
  "\n\n\n## Links\n\n- [Neo" ++ apos ++ "s World](https://neos21.net/)\n"

def pkgA0 : String := "\x7b\n  \"name\": \""

def pkgB1 : String := "\",\n  \"description\": \""

def pkgB2 : String :=
  "\",\n  \"private\": true,\n  \"scripts\": \x7b\n    \"start\": \"node ./index.js\"\n  \x7d,\n  \"author\": \"Neo <neos21@gmail.com> (https://neos21.net/)\",\n  \"license\": \"MIT\",\n  \"homepage\": \"https://github.com/Neos21/"

def pkgA2 : String :=
  "#readme\",\n  \"repository\": \x7b\n    \"type\": \"git\",\n    \"url\": \"git+https://github.com/Neos21/"

def pkgA3 : String :=
  ".git\"\n  \x7d,\n  \"bugs\": \x7b\n    \"url\": \"https://github.com/Neos21/"

def pkgA4 : String :=
  "/issues\"\n  \x7d,\n  \"funding\": \x7b\n    \"type\": \"github\",\n    \"url\": \"https://github.com/sponsors/Neos21\"\n  \x7d\n\x7d\n"



-- ================================================================================
-- Infrastructure: properties of the replacement scanner
-- ================================================================================

theorem headSafe_append {t : List Char} (x : List Char) (h : t ≠ []) :
    headSafe (t ++ x) = headSafe t := by
  cases t with
  | nil => exact absurd rfl h
  | cons c rest => rfl

theorem lastSafe_cons_cons {c d : Char} {a : List Char} :
    lastSafe (c :: d :: a) = lastSafe (d :: a) := by
  unfold lastSafe
  rw [List.getLast?_cons_cons]

/-- The result of `rAuxLit` does not depend on the fuel, as long as the fuel
covers the length of the scanned list. -/
theorem rAuxLit_fuel (pat rep : List Char) :
    ∀ (n m : Nat) (s : List Char), s.length ≤ n → s.length ≤ m →
      rAuxLit pat rep n s = rAuxLit pat rep m s := by
  intro n
  induction n with
  | zero =>
      intro m s hn _
      have hs : s = [] := List.length_eq_zero.mp (Nat.le_zero.mp hn)
      subst hs
      cases m <;> rfl
  | succ n ih =>
      intro m s hn hm
      cases s with
      | nil => cases m <;> rfl
      | cons c rest =>
          cases m with
          | zero => simp at hm
          | succ m =>
              have hrest : rest.length ≤ n := by
                simpa using Nat.lt_succ_iff.mp (Nat.lt_of_lt_of_le (by simp) hn)
              have hrest' : rest.length ≤ m := by
                simpa using Nat.lt_succ_iff.mp (Nat.lt_of_lt_of_le (by simp) hm)
              cases hpre : pat.isPrefixOf (c :: rest) with
              | false =>
                  simp only [rAuxLit, hpre]
                  exact congrArg (c :: ·) (ih m rest hrest hrest')
              | true =>
                  cases pat with
                  | nil =>
                      simp only [rAuxLit]
                      exact congrArg (c :: ·) (ih m rest hrest hrest')
                  | cons p patRest =>
                      simp only [rAuxLit, hpre]
                      refine congrArg (rep ++ ·) (ih m _ ?_ ?_) <;>
                        calc (rest.drop patRest.length).length ≤ rest.length := by
                                simp [List.length_drop]
                          _ ≤ _ := by assumption

/-- A pattern that is a prefix of `s` occurs in `s`. -/
theorem occursSub_of_isPre {pat s : List Char} (h : pat <+: s) :
    occursSub pat s = true := by
  cases s with
  | nil =>
      have : pat = [] := List.prefix_nil.mp h
      subst this
      rfl
  | cons c rest =>
      simp only [occursSub, Bool.or_eq_true]
      exact Or.inl (List.isPrefixOf_iff_prefix.mpr h)

theorem occursSub_cons_false {pat : List Char} {c : Char} {rest : List Char}
    (h : occursSub pat (c :: rest) = false) :
    pat.isPrefixOf (c :: rest) = false ∧ occursSub pat rest = false := by
  simpa only [occursSub, Bool.or_eq_false_iff] using h

/-- An all-token-character pattern cannot start at the head of `a ++ t`
when it does not occur in `a` and the last character of `a` is not a
token character (`a` nonempty). -/
theorem notPre_left {pat a : List Char} (t : List Char)
    (htok : pat.all tokChar = true) (hocc : occursSub pat a = false)
    (hsafe : lastSafe a = true) (hne : a ≠ []) :
    pat.isPrefixOf (a ++ t) = false := by
  cases hpre : pat.isPrefixOf (a ++ t) with
  | false => rfl
  | true =>
      exfalso
      have hp : pat <+: a ++ t := List.isPrefixOf_iff_prefix.mp hpre
      rcases Nat.le_total pat.length a.length with hle | hge
      · have : pat <+: a :=
          List.prefix_of_prefix_length_le hp (List.prefix_append a t) hle
        rw [occursSub_of_isPre this] at hocc
        exact Bool.true_eq_false.mp hocc
      · have hap : a <+: pat :=
          List.prefix_of_prefix_length_le (List.prefix_append a t) hp hge
        have hmem : a.getLast hne ∈ pat :=
          hap.sublist.subset (List.getLast_mem hne)
        have htc : tokChar (a.getLast hne) = true :=
          List.all_eq_true.mp htok _ hmem
        have hls : lastSafe a = !tokChar (a.getLast hne) := by
          rw [lastSafe, List.getLast?_eq_getLast a hne]
        rw [hls, htc] at hsafe
        exact Bool.true_eq_false.mp (by simpa using hsafe)

/-- An all-token-character pattern cannot start at the head of `a ++ t`
when it does not occur in `a` and the first character of `t` is not a
token character (`a` nonempty). -/
theorem notPre_right {pat a : List Char} (t : List Char)
    (htok : pat.all tokChar = true) (hocc : occursSub pat a = false)
    (hsafe : headSafe t = true) (hne : a ≠ []) :
    pat.isPrefixOf (a ++ t) = false := by
  cases hpre : pat.isPrefixOf (a ++ t) with
  | false => rfl
  | true =>
      exfalso
      have hp : pat <+: a ++ t := List.isPrefixOf_iff_prefix.mp hpre
      rcases Nat.le_total pat.length a.length with hle | hge
      · have : pat <+: a :=
          List.prefix_of_prefix_length_le hp (List.prefix_append a t) hle
        rw [occursSub_of_isPre this] at hocc
        exact Bool.true_eq_false.mp hocc
      · have hap : a <+: pat :=
          List.prefix_of_prefix_length_le (List.prefix_append a t) hp hge
        obtain ⟨p₂, hp₂⟩ := hap
        cases hq : p₂ with
        | nil =>
            subst hq
            rw [List.append_nil] at hp₂
            subst hp₂
            rw [occursSub_of_isPre (List.prefix_refl a)] at hocc
            exact Bool.true_eq_false.mp hocc
        | cons d q =>
            subst hq
            have hq₂ : (d :: q) <+: t := by
              have hthis := hp
              rw [← hp₂] at hthis
              exact (List.prefix_append_right_inj a).mp hthis
            obtain ⟨r, hr⟩ := hq₂
            have hmem : d ∈ pat := by
              rw [← hp₂]
              exact List.mem_append_right a (List.mem_cons_self d q)
            have htc : tokChar d = true := List.all_eq_true.mp htok _ hmem
            have hhs : headSafe t = !tokChar d := by
              rw [← hr]
              rfl
            rw [hhs, htc] at hsafe
            exact Bool.true_eq_false.mp (by simpa using hsafe)

/-- No occurrence across an append whose left side ends in a non-token
character. -/
theorem occursSub_append_left {pat : List Char} (a t : List Char)
    (htok : pat.all tokChar = true) (hocc : occursSub pat a = false)
    (hocct : occursSub pat t = false) (hsafe : lastSafe a = true) :
    occursSub pat (a ++ t) = false := by
  induction a with
  | nil => simpa using hocct
  | cons c a' ih =>
      rw [List.cons_append]
      have hparts := occursSub_cons_false hocc
      have hsafe' : lastSafe a' = true := by
        cases a' with
        | nil => rfl
        | cons d a'' => rw [← lastSafe_cons_cons (c := c)]; exact hsafe
      have hpre : pat.isPrefixOf ((c :: a') ++ t) = false :=
        notPre_left t htok hocc hsafe (by simp)
      rw [List.cons_append] at hpre
      simp only [occursSub, Bool.or_eq_false_iff]
      exact ⟨hpre, ih hparts.2 hsafe'⟩

/-- No occurrence across an append whose right side starts with a
non-token character. -/
theorem occursSub_append_right {pat : List Char} (a t : List Char)
    (htok : pat.all tokChar = true) (hocc : occursSub pat a = false)
    (hocct : occursSub pat t = false) (hsafe : headSafe t = true) :
    occursSub pat (a ++ t) = false := by
  induction a with
  | nil => simpa using hocct
  | cons c a' ih =>
      rw [List.cons_append]
      have hparts := occursSub_cons_false hocc
      have hpre : pat.isPrefixOf ((c :: a') ++ t) = false :=
        notPre_right t htok hocc hsafe (by simp)
      rw [List.cons_append] at hpre
      simp only [occursSub, Bool.or_eq_false_iff]
      exact ⟨hpre, ih hparts.2⟩

theorem replaceAllLit_nil (pat rep : List Char) : replaceAllLit pat rep [] = [] := rfl

/-- One scanner step over a head where the pattern does not match. -/
theorem replaceAllLit_cons_skip {pat : List Char} (rep : List Char) {c : Char}
    {s : List Char} (h : pat.isPrefixOf (c :: s) = false) :
    replaceAllLit pat rep (c :: s) = c :: replaceAllLit pat rep s := by
  show rAuxLit pat rep (s.length + 1) (c :: s) = c :: rAuxLit pat rep s.length s
  cases pat with
  | nil => simp [List.isPrefixOf] at h
  | cons p pr => simp only [rAuxLit, h]

/-- The scanner replaces a match at the head and resumes after it. -/
theorem replaceAllLit_match {pat : List Char} (rep : List Char) (t : List Char)
    (hne : pat ≠ []) :
    replaceAllLit pat rep (pat ++ t) = rep ++ replaceAllLit pat rep t := by
  cases pat with
  | nil => exact absurd rfl hne
  | cons p pr =>
      show rAuxLit (p :: pr) rep ((p :: pr) ++ t).length ((p :: pr) ++ t)
          = rep ++ rAuxLit (p :: pr) rep t.length t
      have hlen : ((p :: pr) ++ t).length = (pr.length + t.length) + 1 := by
        simp [Nat.add_comm, Nat.add_assoc, Nat.add_left_comm]
      rw [hlen]
      have hpre : (p :: pr).isPrefixOf ((p :: pr) ++ t) = true :=
        List.isPrefixOf_iff_prefix.mpr (List.prefix_append _ _)
      rw [List.cons_append]
      rw [List.cons_append] at hpre
      simp only [rAuxLit, hpre]
      rw [List.drop_left pr t]
      exact congrArg (rep ++ ·)
        (rAuxLit_fuel _ _ _ _ _ (Nat.le_add_left _ _) (Nat.le_refl _))

/-- A pattern with no occurrence is not replaced. -/
theorem replaceAllLit_id {pat : List Char} (rep : List Char) {s : List Char}
    (hocc : occursSub pat s = false) :
    replaceAllLit pat rep s = s := by
  induction s with
  | nil => rfl
  | cons c rest ih =>
      have hparts := occursSub_cons_false hocc
      rw [replaceAllLit_cons_skip rep hparts.1]
      exact congrArg (c :: ·) (ih hparts.2)

/-- Peel a literal segment (ending in a non-token character, containing
no occurrence) off the front of the scanned text. -/
theorem replaceAllLit_peel_lit {pat : List Char} (rep : List Char) (a t : List Char)
    (htok : pat.all tokChar = true) (hocc : occursSub pat a = false)
    (hsafe : lastSafe a = true) :
    replaceAllLit pat rep (a ++ t) = a ++ replaceAllLit pat rep t := by
  induction a with
  | nil => rfl
  | cons c a' ih =>
      have hparts := occursSub_cons_false hocc
      have hsafe' : lastSafe a' = true := by
        cases a' with
        | nil => rfl
        | cons d a'' => rw [← lastSafe_cons_cons (c := c)]; exact hsafe
      have hpre : pat.isPrefixOf ((c :: a') ++ t) = false :=
        notPre_left t htok hocc hsafe (by simp)
      rw [List.cons_append] at hpre ⊢
      rw [replaceAllLit_cons_skip rep hpre]
      rw [ih hparts.2 hsafe']
      rfl

/-- Peel a segment (containing no occurrence) off the front of the
scanned text when the rest starts with a non-token character. -/
theorem replaceAllLit_peel_var {pat : List Char} (rep : List Char) (v t : List Char)
    (htok : pat.all tokChar = true) (hocc : occursSub pat v = false)
    (hsafe : headSafe t = true) :
    replaceAllLit pat rep (v ++ t) = v ++ replaceAllLit pat rep t := by
  induction v with
  | nil => rfl
  | cons c v' ih =>
      have hparts := occursSub_cons_false hocc
      have hpre : pat.isPrefixOf ((c :: v') ++ t) = false :=
        notPre_right t htok hocc hsafe (by simp)
      rw [List.cons_append] at hpre ⊢
      rw [replaceAllLit_cons_skip rep hpre]
      rw [ih hparts.2]
      rfl

/-- A replacement text without dollar characters expands to itself. -/
theorem expandRepl_noDollar (matched before after : List Char) {rep : List Char}
    (h : noDollar rep = true) :
    expandRepl matched before after rep = rep := by
  induction rep with
  | nil => rfl
  | cons c rest ih =>
      rw [noDollar, List.all_cons, Bool.and_eq_true] at h
      have hc : ¬ c = dollarChar := by simpa using h.1
      have hrec := ih h.2
      cases rest with
      | nil => rw [expandRepl.eq_2, if_neg hc, hrec]
      | cons d rest2 => rw [expandRepl.eq_3, if_neg hc, hrec]

/-- With a dollar-free replacement text the scanner coincides with the
verbatim-insertion scanner, whatever the consumed prefix. -/
theorem rAux_noDollar (pat : List Char) {rep : List Char}
    (h : noDollar rep = true) :
    ∀ (n : Nat) (pre s : List Char), rAux pat rep n pre s = rAuxLit pat rep n s := by
  intro n
  induction n with
  | zero => intro pre s; cases s <;> rfl
  | succ n ih =>
      intro pre s
      cases s with
      | nil => rfl
      | cons c rest =>
          cases hpre : pat.isPrefixOf (c :: rest) with
          | false =>
              simp only [rAux, rAuxLit, hpre]
              exact congrArg (c :: ·) (ih _ rest)
          | true =>
              cases pat with
              | nil =>
                  simp only [rAux, rAuxLit]
                  exact congrArg (c :: ·) (ih _ rest)
              | cons p patRest =>
                  simp only [rAux, rAuxLit, hpre]
                  rw [expandRepl_noDollar _ _ _ h]
                  exact congrArg (rep ++ ·) (ih _ _)

/-- Dollar-free replacement values are inserted verbatim. -/
theorem replaceAllL_noDollar (pat s : List Char) {rep : List Char}
    (h : noDollar rep = true) :
    replaceAllL pat rep s = replaceAllLit pat rep s :=
  rAux_noDollar pat h s.length [] s

/-- When the pattern never matches, the two scanners also coincide (no
replacement text is ever expanded). -/
theorem rAux_noMatch (pat rep : List Char) :
    ∀ (n : Nat) (pre s : List Char), occursSub pat s = false →
      rAux pat rep n pre s = rAuxLit pat rep n s := by
  intro n
  induction n with
  | zero => intro pre s _; cases s <;> rfl
  | succ n ih =>
      intro pre s h
      cases s with
      | nil => rfl
      | cons c rest =>
          have hparts := occursSub_cons_false h
          simp only [rAux, rAuxLit, hparts.1]
          exact congrArg (c :: ·) (ih _ rest hparts.2)

/-- A pattern with no occurrence is not replaced (whatever dollar
sequences the replacement value contains). -/
theorem replaceAllL_id {pat : List Char} (rep : List Char) {s : List Char}
    (hocc : occursSub pat s = false) :
    replaceAllL pat rep s = s := by
  have h := rAux_noMatch pat rep s.length [] s hocc
  exact h.trans (replaceAllLit_id rep hocc)

-- ================================================================================
-- Infrastructure: the concrete templates, decomposed at their placeholders
-- ================================================================================

theorem readme_decomp :
    readmeContent.data =
      "# ".data ++ (tokDesc.data ++ ("\n\n".data ++ (tokDesc.data ++ readmeTail.data))) := by
  decide

theorem pkg_decomp :
    packageJsonContent.data =
      pkgA0.data ++ (tokRepo.data ++ (pkgB1.data ++ (tokDesc.data ++ (pkgB2.data
        ++ (tokRepo.data ++ (pkgA2.data ++ (tokRepo.data ++ (pkgA3.data
        ++ (tokRepo.data ++ pkgA4.data))))))))) := by
  decide

/-- The ignore template contains no placeholder, so substitution is the
identity on it. -/
theorem gitignore_subst (name desc : String) :
    replacedContent gitignoreContent name desc = gitignoreContent := by
  apply String.ext
  show replaceAllL tokDesc.data desc.data
      (replaceAllL tokRepo.data name.data gitignoreContent.data)
    = gitignoreContent.data
  rw [replaceAllL_id name.data (by decide)]
  rw [replaceAllL_id desc.data (by decide)]

/-- The funding template contains no placeholder. -/
theorem funding_subst (name desc : String) :
    replacedContent fundingContent name desc = fundingContent := by
  apply String.ext
  show replaceAllL tokDesc.data desc.data
      (replaceAllL tokRepo.data name.data fundingContent.data)
    = fundingContent.data
  rw [replaceAllL_id name.data (by decide)]
  rw [replaceAllL_id desc.data (by decide)]

/-- The marker template is empty. -/
theorem nojekyll_subst (name desc : String) :
    replacedContent "" name desc = "" := rfl

/-- Substitution on the readme template: both description sites receive
the literal description, provided the description contains no dollar
character (a dollar escape would be expanded by the replacement). -/
theorem readme_subst (name desc : String) (hdd : noDollar desc.data = true) :
    replacedContent readmeContent name desc =
      "# " ++ desc ++ "\n\n" ++ desc ++ readmeTail := by
  apply String.ext
  show replaceAllL tokDesc.data desc.data
      (replaceAllL tokRepo.data name.data readmeContent.data)
    = ("# " ++ desc ++ "\n\n" ++ desc ++ readmeTail).data
  rw [replaceAllL_id name.data (by decide)]
  rw [replaceAllL_noDollar _ _ hdd]
  rw [readme_decomp]
  rw [replaceAllLit_peel_lit desc.data "# ".data _ (by decide) (by decide) (by decide)]
  rw [replaceAllLit_match desc.data _ (by decide)]
  rw [replaceAllLit_peel_lit desc.data "\n\n".data _ (by decide) (by decide) (by decide)]
  rw [replaceAllLit_match desc.data _ (by decide)]
  rw [replaceAllLit_id desc.data (by decide)]
  simp [String.data_append, List.append_assoc]

/-- Substitution on the manifest template: all four repository-name sites
receive the literal name and the description site the literal
description, provided the name does not itself contain the description
token (the second pass would rewrite it) and neither value contains a
dollar character (a dollar escape would be expanded by the
replacement). -/
theorem pkg_subst (name desc : String)
    (hn : occursSub tokDesc.data name.data = false)
    (hnd : noDollar name.data = true) (hdd : noDollar desc.data = true) :
    replacedContent packageJsonContent name desc =
      pkgA0 ++ name ++ pkgB1 ++ desc ++ pkgB2 ++ name ++ pkgA2 ++ name ++ pkgA3
        ++ name ++ pkgA4 := by
  apply String.ext
  show replaceAllL tokDesc.data desc.data
      (replaceAllL tokRepo.data name.data packageJsonContent.data)
    = (pkgA0 ++ name ++ pkgB1 ++ desc ++ pkgB2 ++ name ++ pkgA2 ++ name ++ pkgA3
        ++ name ++ pkgA4).data
  rw [replaceAllL_noDollar _ _ hnd]
  rw [replaceAllL_noDollar _ _ hdd]
  rw [pkg_decomp]
  -- first pass: replace the four repository-name sites
  rw [replaceAllLit_peel_lit name.data pkgA0.data _ (by decide) (by decide) (by decide)]
  rw [replaceAllLit_match name.data _ (by decide)]
  rw [replaceAllLit_peel_lit name.data pkgB1.data _ (by decide) (by decide) (by decide)]
  rw [replaceAllLit_peel_var name.data tokDesc.data _ (by decide) (by decide)
    (by rw [headSafe_append _ (by decide)]; decide)]
  rw [replaceAllLit_peel_lit name.data pkgB2.data _ (by decide) (by decide) (by decide)]
  rw [replaceAllLit_match name.data _ (by decide)]
  rw [replaceAllLit_peel_lit name.data pkgA2.data _ (by decide) (by decide) (by decide)]
  rw [replaceAllLit_match name.data _ (by decide)]
  rw [replaceAllLit_peel_lit name.data pkgA3.data _ (by decide) (by decide) (by decide)]
  rw [replaceAllLit_match name.data _ (by decide)]
  rw [replaceAllLit_id name.data (by decide)]
  -- second pass: replace the description site, skipping the name inserts
  rw [replaceAllLit_peel_lit desc.data pkgA0.data _ (by decide) (by decide) (by decide)]
  rw [replaceAllLit_peel_var desc.data name.data _ (by decide) hn
    (by rw [headSafe_append _ (by decide)]; decide)]
  rw [replaceAllLit_peel_lit desc.data pkgB1.data _ (by decide) (by decide) (by decide)]
  rw [replaceAllLit_match desc.data _ (by decide)]
  rw [replaceAllLit_peel_lit desc.data pkgB2.data _ (by decide) (by decide) (by decide)]
  rw [replaceAllLit_peel_var desc.data name.data _ (by decide) hn
    (by rw [headSafe_append _ (by decide)]; decide)]
  rw [replaceAllLit_peel_lit desc.data pkgA2.data _ (by decide) (by decide) (by decide)]
  rw [replaceAllLit_peel_var desc.data name.data _ (by decide) hn
    (by rw [headSafe_append _ (by decide)]; decide)]
  rw [replaceAllLit_peel_lit desc.data pkgA3.data _ (by decide) (by decide) (by decide)]
  rw [replaceAllLit_peel_var desc.data name.data _ (by decide) hn (by decide)]
  rw [replaceAllLit_id desc.data (by decide)]
  simp [String.data_append, List.append_assoc]

/-- No token occurrence survives in the substituted readme when the
description is token-free. -/
theorem readme_noTok {pat : List Char} (htok : pat.all tokChar = true)
    (hlit0 : occursSub pat "# ".data = false)
    (hlit1 : occursSub pat "\n\n".data = false)
    (hlit2 : occursSub pat readmeTail.data = false)
    {desc : String} (hd : occursSub pat desc.data = false) :
    occursSub pat ("# " ++ desc ++ "\n\n" ++ desc ++ readmeTail).data = false := by
  have h1 : occursSub pat (desc.data ++ readmeTail.data) = false :=
    occursSub_append_right _ _ htok hd hlit2 (by decide)
  have h2 : occursSub pat ("\n\n".data ++ (desc.data ++ readmeTail.data)) = false :=
    occursSub_append_left _ _ htok hlit1 h1 (by decide)
  have h3 : occursSub pat
      (desc.data ++ ("\n\n".data ++ (desc.data ++ readmeTail.data))) = false :=
    occursSub_append_right _ _ htok hd h2
      (by rw [headSafe_append _ (by decide)]; decide)
  have h4 : occursSub pat
      ("# ".data ++ (desc.data ++ ("\n\n".data ++ (desc.data ++ readmeTail.data))))
      = false :=
    occursSub_append_left _ _ htok hlit0 h3 (by decide)
  calc occursSub pat ("# " ++ desc ++ "\n\n" ++ desc ++ readmeTail).data
      = occursSub pat
          ("# ".data ++ (desc.data ++ ("\n\n".data ++ (desc.data ++ readmeTail.data))))
        := by simp [String.data_append, List.append_assoc]
    _ = false := h4

/-- No token occurrence survives in the substituted manifest when the
name and description are token-free. -/
theorem pkg_noTok {pat : List Char} (htok : pat.all tokChar = true)
    (hA0 : occursSub pat pkgA0.data = false)
    (hB1 : occursSub pat pkgB1.data = false)
    (hB2 : occursSub pat pkgB2.data = false)
    (hA2 : occursSub pat pkgA2.data = false)
    (hA3 : occursSub pat pkgA3.data = false)
    (hA4 : occursSub pat pkgA4.data = false)
    {name desc : String} (hname : occursSub pat name.data = false)
    (hdesc : occursSub pat desc.data = false) :
    occursSub pat (pkgA0 ++ name ++ pkgB1 ++ desc ++ pkgB2 ++ name ++ pkgA2
      ++ name ++ pkgA3 ++ name ++ pkgA4).data = false := by
  have h9 : occursSub pat (name.data ++ pkgA4.data) = false :=
    occursSub_append_right _ _ htok hname hA4 (by decide)
  have h8 : occursSub pat (pkgA3.data ++ (name.data ++ pkgA4.data)) = false :=
    occursSub_append_left _ _ htok hA3 h9 (by decide)
  have h7 : occursSub pat (name.data ++ (pkgA3.data ++ (name.data ++ pkgA4.data)))
      = false :=
    occursSub_append_right _ _ htok hname h8
      (by rw [headSafe_append _ (by decide)]; decide)
  have h6 : occursSub pat (pkgA2.data
      ++ (name.data ++ (pkgA3.data ++ (name.data ++ pkgA4.data)))) = false :=
    occursSub_append_left _ _ htok hA2 h7 (by decide)
  have h5 : occursSub pat (name.data ++ (pkgA2.data
      ++ (name.data ++ (pkgA3.data ++ (name.data ++ pkgA4.data))))) = false :=
    occursSub_append_right _ _ htok hname h6
      (by rw [headSafe_append _ (by decide)]; decide)
  have h4 : occursSub pat (pkgB2.data ++ (name.data ++ (pkgA2.data
      ++ (name.data ++ (pkgA3.data ++ (name.data ++ pkgA4.data)))))) = false :=
    occursSub_append_left _ _ htok hB2 h5 (by decide)
  have h3 : occursSub pat (desc.data ++ (pkgB2.data ++ (name.data ++ (pkgA2.data
      ++ (name.data ++ (pkgA3.data ++ (name.data ++ pkgA4.data))))))) = false :=
    occursSub_append_right _ _ htok hdesc h4
      (by rw [headSafe_append _ (by decide)]; decide)
  have h2 : occursSub pat (pkgB1.data ++ (desc.data ++ (pkgB2.data
      ++ (name.data ++ (pkgA2.data ++ (name.data ++ (pkgA3.data
      ++ (name.data ++ pkgA4.data)))))))) = false :=
    occursSub_append_left _ _ htok hB1 h3 (by decide)
  have h1 : occursSub pat (name.data ++ (pkgB1.data ++ (desc.data ++ (pkgB2.data
      ++ (name.data ++ (pkgA2.data ++ (name.data ++ (pkgA3.data
      ++ (name.data ++ pkgA4.data))))))))) = false :=
    occursSub_append_right _ _ htok hname h2
      (by rw [headSafe_append _ (by decide)]; decide)
  have h0 : occursSub pat (pkgA0.data ++ (name.data ++ (pkgB1.data
      ++ (desc.data ++ (pkgB2.data ++ (name.data ++ (pkgA2.data
      ++ (name.data ++ (pkgA3.data ++ (name.data ++ pkgA4.data)))))))))) = false :=
    occursSub_append_left _ _ htok hA0 h1 (by decide)
  calc occursSub pat (pkgA0 ++ name ++ pkgB1 ++ desc ++ pkgB2 ++ name ++ pkgA2
        ++ name ++ pkgA3 ++ name ++ pkgA4).data
      = occursSub pat (pkgA0.data ++ (name.data ++ (pkgB1.data
          ++ (desc.data ++ (pkgB2.data ++ (name.data ++ (pkgA2.data
          ++ (name.data ++ (pkgA3.data ++ (name.data ++ pkgA4.data))))))))))
        := by simp [String.data_append, List.append_assoc]
    _ = false := h0

theorem pathResolve_ne (base relPath : String) (h : ¬ relPath = "") :
    pathResolve base relPath = base ++ "/" ++ relPath := if_neg h

theorem pathJoin_ne (a b : String) (h : ¬ a = "") :
    pathJoin a b = a ++ "/" ++ b := if_neg h

/-- The funding file's write path (built in two `resolve` steps) equals
its relative-path lookup key built with `join`. -/
theorem funding_path (repo : String) :
    pathResolve (pathResolve repo ".github") "FUNDING.yml"
      = pathResolve repo (pathJoin ".github" "FUNDING.yml") := by
  rw [pathJoin_ne _ _ (by decide), pathResolve_ne _ _ (by decide),
    pathResolve_ne _ _ (by decide), pathResolve_ne _ _ (by decide)]
  simp [String.append_assoc]

-- ================================================================================
-- Claims
-- ================================================================================

/-- C1, counterexample to the claim as stated: with the per-file
confirmation answered affirmatively, repository name `demo` and
description `__REPOSITORY_NAME__`, the readme file written by
`createTemplateFile` still contains the repository-name placeholder
token (the description substitution re-inserts it after the
repository-name pass has already run). -/
theorem claim_C1_counterexample :
    trimS "y" = "y" ∧
    occursSub tokRepo.data
      ((fsRead (createTemplateFile
          { fileName := "README.md", content := readmeContent }
          "/gh/demo" "demo" "__REPOSITORY_NAME__"
          { inputs := ["y"], dirs := [], files := [], trace := [] }).2
        "/gh/demo/README.md").getD "").data = true := by
  decide

/-- C1, amended: provided the supplied repository name and description
contain no occurrence of either placeholder token and no dollar
character (a dollar escape in a replacement value is expanded by JS
`replace` rather than inserted verbatim), every template materialisation
replaces every placeholder site with the exact literal values and leaves
no placeholder token behind; moreover an affirmative run of
`createTemplateFile` writes exactly that substituted content to the
template's destination path. -/
theorem claim_C1 (name desc : String)
    (h1 : occursSub tokRepo.data name.data = false)
    (h2 : occursSub tokDesc.data name.data = false)
    (h3 : occursSub tokRepo.data desc.data = false)
    (h4 : occursSub tokDesc.data desc.data = false)
    (h5 : noDollar name.data = true)
    (h6 : noDollar desc.data = true) :
    (∀ tf ∈ templateFiles,
        occursSub tokRepo.data (replacedContent tf.content name desc).data = false ∧
        occursSub tokDesc.data (replacedContent tf.content name desc).data = false) ∧
    replacedContent gitignoreContent name desc = gitignoreContent ∧
    replacedContent readmeContent name desc
      = "# " ++ desc ++ "\n\n" ++ desc ++ readmeTail ∧
    replacedContent fundingContent name desc = fundingContent ∧
    replacedContent packageJsonContent name desc
      = pkgA0 ++ name ++ pkgB1 ++ desc ++ pkgB2 ++ name ++ pkgA2 ++ name ++ pkgA3
        ++ name ++ pkgA4 ∧
    replacedContent "" name desc = "" ∧
    (∀ tf ∈ templateFiles, ∀ (repo line : String) (rest dirs : List String)
        (files : List (String × String)) (trace : List Effect),
        trimS line = "y" →
        fsRead (createTemplateFile tf repo name desc
            { inputs := line :: rest, dirs := dirs, files := files,
              trace := trace }).2
          (pathResolve repo (pathJoin (tf.subDirectory.getD "") tf.fileName))
          = some (replacedContent tf.content name desc)) := by
  refine ⟨?_, gitignore_subst name desc, readme_subst name desc h6,
    funding_subst name desc, pkg_subst name desc h2 h5 h6, rfl, ?_⟩
  · intro tf htf
    simp only [templateFiles, List.mem_cons, List.not_mem_nil, or_false] at htf
    rcases htf with rfl | rfl | rfl | rfl | rfl
    · show occursSub tokRepo.data (replacedContent gitignoreContent name desc).data
          = false ∧
        occursSub tokDesc.data (replacedContent gitignoreContent name desc).data
          = false
      rw [gitignore_subst]
      exact ⟨by decide, by decide⟩
    · show occursSub tokRepo.data (replacedContent readmeContent name desc).data
          = false ∧
        occursSub tokDesc.data (replacedContent readmeContent name desc).data
          = false
      rw [readme_subst name desc h6]
      exact ⟨readme_noTok (by decide) (by decide) (by decide) (by decide) h3,
        readme_noTok (by decide) (by decide) (by decide) (by decide) h4⟩
    · show occursSub tokRepo.data (replacedContent fundingContent name desc).data
          = false ∧
        occursSub tokDesc.data (replacedContent fundingContent name desc).data
          = false
      rw [funding_subst]
      exact ⟨by decide, by decide⟩
    · show occursSub tokRepo.data (replacedContent packageJsonContent name desc).data
          = false ∧
        occursSub tokDesc.data (replacedContent packageJsonContent name desc).data
          = false
      rw [pkg_subst name desc h2 h5 h6]
      exact ⟨pkg_noTok (by decide) (by decide) (by decide) (by decide) (by decide)
          (by decide) (by decide) h1 h3,
        pkg_noTok (by decide) (by decide) (by decide) (by decide) (by decide)
          (by decide) (by decide) h2 h4⟩
    · show occursSub tokRepo.data (replacedContent "" name desc).data = false ∧
        occursSub tokDesc.data (replacedContent "" name desc).data = false
      rw [nojekyll_subst]
      exact ⟨by decide, by decide⟩
  · intro tf htf repo line rest dirs files trace hline
    simp only [templateFiles, List.mem_cons, List.not_mem_nil, or_false] at htf
    rcases htf with rfl | rfl | rfl | rfl | rfl <;>
      simp [createTemplateFile, readText, emit, fsWriteFile, fsRead, hline,
        pathJoin, funding_path]

/-- Witness for C1 at repository name `demo` and description
`A demo repo`. -/
theorem claim_C1_witness :
    (occursSub tokRepo.data "demo".data = false ∧
     occursSub tokDesc.data "demo".data = false ∧
     occursSub tokRepo.data "A demo repo".data = false ∧
     occursSub tokDesc.data "A demo repo".data = false ∧
     noDollar "demo".data = true ∧
     noDollar "A demo repo".data = true) ∧
    replacedContent packageJsonContent "demo" "A demo repo"
      = pkgA0 ++ "demo" ++ pkgB1 ++ "A demo repo" ++ pkgB2 ++ "demo" ++ pkgA2
        ++ "demo" ++ pkgA3 ++ "demo" ++ pkgA4 :=
  ⟨⟨by decide, by decide, by decide, by decide, by decide, by decide⟩,
    (claim_C1 "demo" "A demo repo" (by decide) (by decide) (by decide)
      (by decide) (by decide) (by decide)).2.2.2.2.1⟩

-- ================================================================================
-- Infrastructure: control-flow lemmas
-- ================================================================================

theorem fsStat_emit (e : Effect) (st : St) (p : String) :
    fsStat (emit e st) p = fsStat st p := rfl

/-- `fsStat` ignores the pending input and the trace. -/
theorem fsStat_upd (st : St) (inputs' : List String) (trace' : List Effect)
    (p : String) :
    fsStat { st with inputs := inputs', trace := trace' } p = fsStat st p := rfl

/-- A string containing a non-whitespace character does not trim to the
empty string. -/
theorem trimS_ne_empty {s : String} {c : Char} (hmem : c ∈ s.data)
    (hc : isWsp c = false) : ¬ trimS s = "" := by
  intro h
  have hdata : trimL s.data = [] := congrArg String.data h
  rw [trimL, List.reverse_eq_nil_iff, List.dropWhile_eq_nil_iff] at hdata
  have hc1 : c ∈ s.data.dropWhile isWsp := by
    rcases List.mem_append.mp
        (show c ∈ s.data.takeWhile isWsp ++ s.data.dropWhile isWsp by
          rw [List.takeWhile_append_dropWhile]; exact hmem) with h1 | h2
    · exact absurd (List.mem_takeWhile_imp h1) (by simp [hc])
    · exact h2
  have hfin := hdata c (List.mem_reverse.mpr hc1)
  rw [hc] at hfin
  exact Bool.false_ne_true hfin

/-- The clone command never trims to the empty string. -/
theorem gitCloneCommand_trim_ne (repositoryName : String) :
    ¬ trimS (gitCloneCommand repositoryName) = "" := by
  refine trimS_ne_empty (c := 'g') ?_ (by decide)
  have hdata : (gitCloneCommand repositoryName).data
      = "git clone ".data ++ (apos.data ++ ("https://Neos21@github.com/Neos21/".data
        ++ (repositoryName.data ++ (".git".data ++ apos.data)))) := by
    simp [gitCloneCommand, String.data_append, List.append_assoc]
  rw [hdata]
  exact List.mem_append.mpr (Or.inl (by decide))

/-- The tolerated diagnostic line is never the empty string. -/
theorem cloningInto_ne_empty (repositoryName : String) :
    ¬ cloningInto repositoryName = "" := by
  intro h
  have hlen := congrArg String.length h
  rw [cloningInto] at hlen
  simp only [String.length_append] at hlen
  have h13 : ("Cloning into " : String).length = 13 := rfl
  have h0 : ("" : String).length = 0 := rfl
  rw [h13, h0] at hlen
  omega

/-- `executeCommand`, resolved process, empty trimmed stderr. -/
theorem executeCommand_success_ok (w : World) (command cwd : String) (st : St)
    (stdout stderr : String)
    (hc : ¬ trimS command = "") (hw : ¬ trimS cwd = "")
    (hx : w.exec command cwd = .success stdout stderr)
    (he : trimS stderr = "") :
    executeCommand w command cwd st
      = (.ok (trimS stdout, trimS stderr),
         { st with dirs := st.dirs ++ w.execDirs command cwd,
                   trace := st.trace ++ [.execE command cwd] }) := by
  simp [executeCommand, emit, hc, hw, hx, he]

/-- `executeCommand`, resolved process, non-empty trimmed stderr. -/
theorem executeCommand_success_err (w : World) (command cwd : String) (st : St)
    (stdout stderr : String)
    (hc : ¬ trimS command = "") (hw : ¬ trimS cwd = "")
    (hx : w.exec command cwd = .success stdout stderr)
    (he : ¬ trimS stderr = "") :
    executeCommand w command cwd st
      = (.error (.stderrResult (trimS stdout) (trimS stderr)),
         { st with dirs := st.dirs ++ w.execDirs command cwd,
                   trace := st.trace ++ [.execE command cwd] }) := by
  simp [executeCommand, emit, hc, hw, hx, he]

/-- `executeCommand`, rejected process. -/
theorem executeCommand_failure_run (w : World) (command cwd : String) (st : St)
    (stdout stderr : String)
    (hc : ¬ trimS command = "") (hw : ¬ trimS cwd = "")
    (hx : w.exec command cwd = .failure stdout stderr) :
    executeCommand w command cwd st
      = (.error (.processFailure stdout stderr),
         { st with dirs := st.dirs ++ w.execDirs command cwd,
                   trace := st.trace ++ [.execE command cwd] }) := by
  simp [executeCommand, emit, hc, hw, hx]

/-- A completing `createGitHubRepository` only appends creator effects to
the trace and leaves input and filesystem untouched. -/
theorem creator_ok_run (w : World) (repositoryName description : String) (st : St)
    (h : creatorOk w = true) :
    ∃ tr, createGitHubRepository w repositoryName description st
        = (.ok (), { st with trace := st.trace ++ tr })
      ∧ tr.all creatorEffect = true := by
  rcases hg : w.ghToken with _ | tok
  · exact ⟨[.enterCreateGitHubRepositoryE],
      by simp [createGitHubRepository, emit, hg], by decide⟩
  · rcases hh : w.http createRepoUrl with _ | data
    · simp only [creatorOk, hg, hh] at h
      exact (Bool.false_ne_true h).elim
    · have hj : w.jsonParses data = true := by
        simpa only [creatorOk, hg, hh] using h
      exact ⟨[.enterCreateGitHubRepositoryE, .httpE createRepoUrl],
        by simp [createGitHubRepository, emit, hg, hh, hj, List.append_assoc],
        by decide⟩

/-- C5: when the destination repository directory already exists before
cloning, `gitClone` performs no network call, no process execution and
no confirmation prompt, and returns the proceed-success signal `true`. -/
theorem claim_C5 (w : World)
    (repositoryName ghRootDirectoryPath ghRepoDirectoryPath : String) (st : St)
    (h : fsStat st ghRepoDirectoryPath = true) :
    gitClone w repositoryName ghRootDirectoryPath ghRepoDirectoryPath st
      = (.ok true, emit .enterGitCloneE st) ∧
    ((emit Effect.enterGitCloneE st).trace.drop st.trace.length).all
      (fun e => !isExternalEffect e && !isPromptEffect e) = true := by
  constructor
  · simp [gitClone, fsStat_emit, h]
  · simp [emit, List.drop_left, isExternalEffect, isPromptEffect]

/-- Witness for C5: a state whose filesystem already has the repository
directory. -/
theorem claim_C5_witness :
    fsStat { stEmpty with dirs := ["/gh/demo"] } "/gh/demo" = true ∧
    gitClone wDemo "demo" "/gh" "/gh/demo" { stEmpty with dirs := ["/gh/demo"] }
      = (.ok true, emit .enterGitCloneE { stEmpty with dirs := ["/gh/demo"] }) :=
  ⟨by decide,
   (claim_C5 wDemo "demo" "/gh" "/gh/demo" { stEmpty with dirs := ["/gh/demo"] }
     (by decide)).1⟩

/-- C7: with the credential environment variable unset,
`createGitHubRepository` performs no network call and returns normally. -/
theorem claim_C7 (w : World) (repositoryName description : String) (st : St)
    (h : w.ghToken = none) :
    createGitHubRepository w repositoryName description st
      = (.ok (), emit .enterCreateGitHubRepositoryE st) ∧
    ((emit Effect.enterCreateGitHubRepositoryE st).trace.drop st.trace.length).all
      (fun e => !isExternalEffect e) = true := by
  constructor
  · simp [createGitHubRepository, h]
  · simp [emit, List.drop_left, isExternalEffect]

/-- Witness for C7 in the tokenless demo environment. -/
theorem claim_C7_witness :
    wDemo.ghToken = none ∧
    createGitHubRepository wDemo "demo" "A demo repo" stEmpty
      = (.ok (), emit .enterCreateGitHubRepositoryE stEmpty) :=
  ⟨rfl, (claim_C7 wDemo "demo" "A demo repo" stEmpty rfl).1⟩

/-- C6: `executeCommand` raises a validation error on an
empty-after-trimming command or working directory (the non-string case
is excluded by typing in this embedding); otherwise it runs the command,
trims both captured streams, raises the structured error carrying both
trimmed streams when the trimmed stderr is non-empty, and returns the
trimmed pair when it is empty. -/
theorem claim_C6 (w : World) (command cwd : String) (st : St) :
    (trimS command = "" →
        executeCommand w command cwd st = (.error .invalidCommandArgument, st)) ∧
    (¬ trimS command = "" → trimS cwd = "" →
        executeCommand w command cwd st = (.error .invalidCwdArgument, st)) ∧
    (¬ trimS command = "" → ¬ trimS cwd = "" →
        (executeCommand w command cwd st).2.trace
            = st.trace ++ [.execE command cwd] ∧
        ∀ stdout stderr, w.exec command cwd = .success stdout stderr →
          executeCommand w command cwd st
            = (if trimS stderr = "" then .ok (trimS stdout, trimS stderr)
               else .error (.stderrResult (trimS stdout) (trimS stderr)),
               { st with dirs := st.dirs ++ w.execDirs command cwd,
                         trace := st.trace ++ [.execE command cwd] })) := by
  refine ⟨?_, ?_, ?_⟩
  · intro hc
    simp [executeCommand, hc]
  · intro hc hw
    simp [executeCommand, hc, hw]
  · intro hc hw
    constructor
    · rcases hx : w.exec command cwd with ⟨stdout, stderr⟩ | ⟨stdout, stderr⟩
      · by_cases he : trimS stderr = ""
        · rw [executeCommand_success_ok w command cwd st stdout stderr hc hw hx he]
        · rw [executeCommand_success_err w command cwd st stdout stderr hc hw hx he]
      · rw [executeCommand_failure_run w command cwd st stdout stderr hc hw hx]
    · intro stdout stderr hx
      by_cases he : trimS stderr = ""
      · rw [executeCommand_success_ok w command cwd st stdout stderr hc hw hx he,
          if_pos he]
      · rw [executeCommand_success_err w command cwd st stdout stderr hc hw hx he,
          if_neg he]

/-- Witness for C6: a command trimming to a word, a valid directory, a
silent successful process. -/
theorem claim_C6_witness :
    executeCommand (mkWorld (.success "out\n" "")) "git status" "/gh" stEmpty
      = (if trimS "" = "" then .ok (trimS "out\n", trimS "")
         else .error (.stderrResult (trimS "out\n") (trimS "")),
         { stEmpty with
             dirs := stEmpty.dirs ++ (mkWorld (.success "out\n" "")).execDirs
               "git status" "/gh",
             trace := stEmpty.trace ++ [.execE "git status" "/gh"] }) :=
  ((claim_C6 (mkWorld (.success "out\n" "")) "git status" "/gh" stEmpty).2.2
    (by decide) (by decide)).2 "out\n" "" rfl

/-- The post-clone existence check yields proceed-success or the
postcondition failure, never a stream error. -/
theorem post_check_cases (c : Prop) [Decidable c] (s s' : St) :
    (if c then ((Except.ok true : Except Err Bool), s)
     else (Except.error Err.cloneDirMissing, s')).1 = Except.ok true ∨
    (if c then ((Except.ok true : Except Err Bool), s)
     else (Except.error Err.cloneDirMissing, s')).1
      = Except.error Err.cloneDirMissing := by
  by_cases h : c <;> simp [h]

/-- C2: a resolved clone command whose trimmed stderr is exactly the
`Cloning into '<name>'...` line with empty trimmed stdout is not treated
as a failure by the cloner (it proceeds to the post-clone existence
check); any other non-empty trimmed stderr makes the cloner raise the
structured stream error. -/
theorem claim_C2 (w : World)
    (repositoryName ghRootDirectoryPath ghRepoDirectoryPath : String)
    (st : St) (line : String) (rest : List String) (stdout stderr : String)
    (hdir : fsStat st ghRepoDirectoryPath = false)
    (hin : st.inputs = line :: rest)
    (hy : trimS line = "y")
    (hroot : ¬ trimS ghRootDirectoryPath = "")
    (hx : w.exec (gitCloneCommand repositoryName) ghRootDirectoryPath
        = .success stdout stderr) :
    (trimS stdout = "" → trimS stderr = cloningInto repositoryName →
        (gitClone w repositoryName ghRootDirectoryPath ghRepoDirectoryPath st).1
            = .ok true ∨
        (gitClone w repositoryName ghRootDirectoryPath ghRepoDirectoryPath st).1
            = .error .cloneDirMissing) ∧
    (¬ trimS stderr = "" →
        (¬ trimS stdout = "" ∨ ¬ trimS stderr = cloningInto repositoryName) →
        (gitClone w repositoryName ghRootDirectoryPath ghRepoDirectoryPath st).1
            = .error (.stderrResult (trimS stdout) (trimS stderr))) := by
  constructor
  · intro h1 h2
    have hne : ¬ trimS stderr = "" := by
      rw [h2]
      exact cloningInto_ne_empty repositoryName
    simp only [gitClone, fsStat_emit, fsStat_upd, hdir, Bool.false_eq_true, if_false,
      readText, hin, emit, hy, ne_eq, not_true_eq_false, if_false,
      executeCommand_success_err w _ _ _ stdout stderr
        (gitCloneCommand_trim_ne repositoryName) hroot hx hne,
      h1, h2, cloneRethrows, errStdout, errStderr]
    simp only [bne_self_eq_false, Bool.or_self, Bool.false_eq_true, if_false]
    exact post_check_cases _ _ _
  · intro h1 h2
    have hrt : cloneRethrows repositoryName
        (.stderrResult (trimS stdout) (trimS stderr)) = true := by
      simp only [cloneRethrows, errStdout, errStderr, Bool.or_eq_true, bne_iff_ne,
        ne_eq, Option.some.injEq]
      rcases h2 with h2 | h2
      · exact Or.inl h2
      · exact Or.inr h2
    simp only [gitClone, fsStat_emit, fsStat_upd, hdir, Bool.false_eq_true, if_false,
      readText, hin, emit, hy, ne_eq, not_true_eq_false, if_false,
      executeCommand_success_err w _ _ _ stdout stderr
        (gitCloneCommand_trim_ne repositoryName) hroot hx h1,
      hrt, if_true]

/-- Witness for C2 with the benign diagnostic (raw stderr carrying a
trailing newline that trimming removes). -/
theorem claim_C2_witness :
    (gitClone (mkWorld (.success "" ("Cloning into " ++ apos ++ "demo" ++ apos
        ++ "...\n"))) "demo" "/gh" "/gh/demo" { stEmpty with inputs := ["y"] }).1
        = .ok true ∨
    (gitClone (mkWorld (.success "" ("Cloning into " ++ apos ++ "demo" ++ apos
        ++ "...\n"))) "demo" "/gh" "/gh/demo" { stEmpty with inputs := ["y"] }).1
        = .error .cloneDirMissing :=
  (claim_C2 (mkWorld (.success "" ("Cloning into " ++ apos ++ "demo" ++ apos
      ++ "...\n"))) "demo" "/gh" "/gh/demo" { stEmpty with inputs := ["y"] }
    "y" [] "" ("Cloning into " ++ apos ++ "demo" ++ apos ++ "...\n")
    (by decide) rfl (by decide) (by decide) rfl).1 (by decide) (by decide)

/-- C10: the cloner's tolerance is keyed on the caught value's stream
fields: any caught value whose `stdout` field is absent or differs from
the empty string is rethrown regardless of its stderr text; in
particular the validation `Error` (empty working directory) and a raw
process rejection with non-empty stdout surface out of `gitClone`. -/
theorem claim_C10 (repositoryName : String) (e : Err)
    (h : ¬ errStdout e = some "") :
    cloneRethrows repositoryName e = true ∧
    (∀ (w : World) (ghRootDirectoryPath ghRepoDirectoryPath line : String)
        (rest : List String) (st : St) (stdout stderr : String),
        fsStat st ghRepoDirectoryPath = false → st.inputs = line :: rest →
        trimS line = "y" → ¬ trimS ghRootDirectoryPath = "" →
        w.exec (gitCloneCommand repositoryName) ghRootDirectoryPath
            = .failure stdout stderr →
        ¬ stdout = "" →
        (gitClone w repositoryName ghRootDirectoryPath ghRepoDirectoryPath st).1
          = .error (.processFailure stdout stderr)) ∧
    (∀ (w : World) (ghRootDirectoryPath ghRepoDirectoryPath line : String)
        (rest : List String) (st : St),
        fsStat st ghRepoDirectoryPath = false → st.inputs = line :: rest →
        trimS line = "y" → trimS ghRootDirectoryPath = "" →
        (gitClone w repositoryName ghRootDirectoryPath ghRepoDirectoryPath st).1
          = .error .invalidCwdArgument) := by
  refine ⟨?_, ?_, ?_⟩
  · simp only [cloneRethrows, Bool.or_eq_true, bne_iff_ne, ne_eq]
    exact Or.inl h
  · intro w root repoDir line rest st stdout stderr hdir hin hy hroot hx hout
    have hrt : cloneRethrows repositoryName (.processFailure stdout stderr)
        = true := by
      simp only [cloneRethrows, Bool.or_eq_true, bne_iff_ne, ne_eq, errStdout,
        Option.some.injEq]
      exact Or.inl hout
    simp only [gitClone, fsStat_emit, fsStat_upd, hdir, Bool.false_eq_true, if_false,
      readText, hin, emit, hy, ne_eq, not_true_eq_false, if_false,
      executeCommand_failure_run w _ _ _ stdout stderr
        (gitCloneCommand_trim_ne repositoryName) hroot hx,
      hrt, if_true]
  · intro w root repoDir line rest st hdir hin hy hroot
    have hval : executeCommand w (gitCloneCommand repositoryName) root
        (emit (.promptE "  Clone Repo?")
          { (emit .enterGitCloneE st) with inputs := rest })
        = (.error .invalidCwdArgument, emit (.promptE "  Clone Repo?")
            { (emit .enterGitCloneE st) with inputs := rest }) := by
      simp [executeCommand, gitCloneCommand_trim_ne repositoryName, hroot]
    simp only [gitClone, fsStat_emit, fsStat_upd, hdir, Bool.false_eq_true, if_false,
      readText, hin, emit, hy, ne_eq, not_true_eq_false, if_false] at *
    simp only [hval, cloneRethrows, errStdout, errStderr]
    simp

/-- Witness for C10: the validation error and a raw process rejection
with non-empty stdout are both rethrown. -/
theorem claim_C10_witness :
    cloneRethrows "demo" Err.invalidCommandArgument = true ∧
    (gitClone (mkWorld (.failure "partial" "boom")) "demo" "/gh" "/gh/demo"
        { stEmpty with inputs := ["y"] }).1
      = .error (.processFailure "partial" "boom") ∧
    (gitClone wDemo "demo" " " "/gh/demo" { stEmpty with inputs := ["y"] }).1
      = .error .invalidCwdArgument := by
  obtain ⟨h1, h2, h3⟩ := claim_C10 "demo" Err.invalidCommandArgument (by decide)
  exact ⟨h1,
    h2 _ _ _ _ _ _ _ _ (by decide) rfl (by decide) (by decide) rfl (by decide),
    h3 _ _ _ _ _ _ (by decide) rfl (by decide) (by decide)⟩

/-- Creator effects are neither identity-configuration nor template
markers. -/
theorem creatorEffect_not_markers {e : Effect} (h : creatorEffect e = true) :
    (!isEnterChangeGitConfig e && !isEnterCreateTemplateFile e) = true := by
  cases e <;> simp_all [creatorEffect, isEnterChangeGitConfig,
    isEnterCreateTemplateFile]

/-- C4: declining the single top-level start confirmation ends the run
without error having performed zero remote calls, zero filesystem
writes and zero process executions (the only recorded effect is the
prompt itself). -/
theorem claim_C4 (w : World) (argv : List String) (st : St) (line : String)
    (rest : List String)
    (hlen : ¬ argv.length < 4) (hin : st.inputs = line :: rest)
    (hn : ¬ trimS line = "y") (htr : st.trace = []) :
    mainRun w argv st
      = (.ok (),
         { st with inputs := rest,
                   trace := st.trace ++ [.promptE "Start?"] }) ∧
    ((mainRun w argv st).2.trace.all fun e => !isExternalEffect e) = true := by
  have h1 : mainRun w argv st
      = (.ok (),
         { st with inputs := rest,
                   trace := st.trace ++ [.promptE "Start?"] }) := by
    simp [mainRun, hlen, readText, hin, emit, hn]
  refine ⟨h1, ?_⟩
  rw [h1]
  simp [htr, isExternalEffect]

/-- Witness for C4: four arguments, a declined start prompt. -/
theorem claim_C4_witness :
    mainRun wDemo ["node", "init.js", "demo", "A demo repo"]
        { stEmpty with inputs := ["n"] }
      = (.ok (),
         { inputs := [], dirs := [], files := [],
           trace := [.promptE "Start?"] }) :=
  (claim_C4 wDemo ["node", "init.js", "demo", "A demo repo"]
    { stEmpty with inputs := ["n"] } "n" [] (by decide) rfl (by decide) rfl).1

/-- C3: when the repository directory is absent and the clone
confirmation is declined, `gitClone` returns the do-not-proceed signal
`false` without error, and the whole run ends without error and without
ever invoking the identity configurer or the template materialiser. -/
theorem claim_C3 (w : World) (argv : List String) (st : St)
    (line1 line2 : String) (rest : List String)
    (hlen : ¬ argv.length < 4)
    (hin : st.inputs = line1 :: line2 :: rest)
    (h1 : trimS line1 = "y") (h2 : ¬ trimS line2 = "y")
    (htr : st.trace = [])
    (hcr : creatorOk w = true)
    (hdir : fsStat st (ghRepoOf w argv) = false) :
    (∀ st₂ : St, fsStat st₂ (ghRepoOf w argv) = false →
        st₂.inputs = line2 :: rest →
        gitClone w (trimS ((argv.get? 2).getD "")) (ghRootOf w argv)
            (ghRepoOf w argv) st₂
          = (.ok false,
             { st₂ with inputs := rest,
                        trace := st₂.trace
                          ++ [.enterGitCloneE, .promptE "  Clone Repo?"] })) ∧
    ∃ st' : St, mainRun w argv st = (.ok (), st') ∧
      (st'.trace.all fun e =>
        !isEnterChangeGitConfig e && !isEnterCreateTemplateFile e) = true := by
  have hA : ∀ st₂ : St, fsStat st₂ (ghRepoOf w argv) = false →
      st₂.inputs = line2 :: rest →
      gitClone w (trimS ((argv.get? 2).getD "")) (ghRootOf w argv)
          (ghRepoOf w argv) st₂
        = (.ok false,
           { st₂ with inputs := rest,
                      trace := st₂.trace
                        ++ [.enterGitCloneE, .promptE "  Clone Repo?"] }) := by
    intro st₂ hd2 hi2
    simp [gitClone, fsStat_emit, fsStat_upd, hd2, readText, hi2, emit, h2]
  refine ⟨hA, ?_⟩
  obtain ⟨tr, hcrun, hall⟩ := creator_ok_run w (trimS ((argv.get? 2).getD ""))
    (trimS ((argv.get? 3).getD ""))
    { st with inputs := line2 :: rest,
              trace := st.trace ++ [.promptE "Start?"] }
    hcr
  have hgc := hA
    { st with inputs := line2 :: rest,
              trace := (st.trace ++ [.promptE "Start?"]) ++ tr }
    (by rw [fsStat_upd]; exact hdir) rfl
  have hcrun' : createGitHubRepository w (trimS ((argv.get? 2).getD ""))
      (trimS ((argv.get? 3).getD ""))
      { inputs := line2 :: rest, dirs := st.dirs, files := st.files,
        trace := st.trace ++ [.promptE "Start?"] }
      = (.ok (),
         { inputs := line2 :: rest, dirs := st.dirs, files := st.files,
           trace := (st.trace ++ [.promptE "Start?"]) ++ tr }) := hcrun
  have hgc' : gitClone w (trimS ((argv.get? 2).getD "")) (ghRootOf w argv)
      (ghRepoOf w argv)
      { inputs := line2 :: rest, dirs := st.dirs, files := st.files,
        trace := (st.trace ++ [.promptE "Start?"]) ++ tr }
      = (.ok false,
         { inputs := rest, dirs := st.dirs, files := st.files,
           trace := ((st.trace ++ [.promptE "Start?"]) ++ tr)
             ++ [.enterGitCloneE, .promptE "  Clone Repo?"] }) := hgc
  have hmain : mainRun w argv st
      = (.ok (),
         { st with inputs := rest,
                   trace := ((st.trace ++ [.promptE "Start?"]) ++ tr)
                     ++ [.enterGitCloneE, .promptE "  Clone Repo?"] }) := by
    simp only [mainRun, hlen, if_false, readText, hin, emit, h1]
    simp only [ne_eq, not_true_eq_false, if_false]
    rw [hcrun']
    simp only []
    rw [hgc']
    simp
  refine ⟨_, hmain, ?_⟩
  simp only [htr, List.nil_append, List.all_append, Bool.and_eq_true]
  refine ⟨⟨by decide, ?_⟩, by decide⟩
  rw [List.all_eq_true] at hall ⊢
  exact fun e he => creatorEffect_not_markers (hall e he)

/-- Witness for C3: token absent, start accepted, clone declined. -/
theorem claim_C3_witness :
    creatorOk wDemo = true ∧
    fsStat { stEmpty with inputs := ["y", "n"] }
        (ghRepoOf wDemo ["node", "init.js", "demo", "A demo repo", "/gh"]) = false ∧
    ∃ st' : St,
      mainRun wDemo ["node", "init.js", "demo", "A demo repo", "/gh"]
          { stEmpty with inputs := ["y", "n"] } = (.ok (), st') ∧
      (st'.trace.all fun e =>
        !isEnterChangeGitConfig e && !isEnterCreateTemplateFile e) = true :=
  ⟨by decide, by decide,
   (claim_C3 wDemo ["node", "init.js", "demo", "A demo repo", "/gh"]
      { stEmpty with inputs := ["y", "n"] } "y" "n" []
      (by decide) rfl (by decide) (by decide) rfl (by decide) (by decide)).2⟩

/-- C8: end-to-end run (token absent, repository directory already
present, git-config declined) in which the `README.md` overwrite is
declined: the run ends without error, the readme keeps its previous
content byte for byte, every other template file is still materialised,
and the five template definitions are processed in the fixed order. -/
theorem claim_C8 (c : String) :
    (mainRun wDemo ["node", "init.js", "demo", "A demo repo", "/gh"]
      { inputs := ["y", "n", "y", "n", "y", "y", "y"], dirs := ["/gh/demo"],
        files := [("/gh/demo/README.md", c)], trace := [] }).1 = .ok () ∧
    fsRead (mainRun wDemo ["node", "init.js", "demo", "A demo repo", "/gh"]
      { inputs := ["y", "n", "y", "n", "y", "y", "y"], dirs := ["/gh/demo"],
        files := [("/gh/demo/README.md", c)], trace := [] }).2 "/gh/demo/README.md" = some c ∧
    ((mainRun wDemo ["node", "init.js", "demo", "A demo repo", "/gh"]
      { inputs := ["y", "n", "y", "n", "y", "y", "y"], dirs := ["/gh/demo"],
        files := [("/gh/demo/README.md", c)], trace := [] }).2.trace.filterMap templateMarkerName)
      = [".gitignore", "README.md", "FUNDING.yml", "package.json", ".nojekyll"] ∧
    fsRead (mainRun wDemo ["node", "init.js", "demo", "A demo repo", "/gh"]
      { inputs := ["y", "n", "y", "n", "y", "y", "y"], dirs := ["/gh/demo"],
        files := [("/gh/demo/README.md", c)], trace := [] }).2 "/gh/demo/.gitignore"
      = some (replacedContent gitignoreContent "demo" "A demo repo") ∧
    fsRead (mainRun wDemo ["node", "init.js", "demo", "A demo repo", "/gh"]
      { inputs := ["y", "n", "y", "n", "y", "y", "y"], dirs := ["/gh/demo"],
        files := [("/gh/demo/README.md", c)], trace := [] }).2 "/gh/demo/.github/FUNDING.yml"
      = some (replacedContent fundingContent "demo" "A demo repo") ∧
    fsRead (mainRun wDemo ["node", "init.js", "demo", "A demo repo", "/gh"]
      { inputs := ["y", "n", "y", "n", "y", "y", "y"], dirs := ["/gh/demo"],
        files := [("/gh/demo/README.md", c)], trace := [] }).2 "/gh/demo/package.json"
      = some (replacedContent packageJsonContent "demo" "A demo repo") ∧
    fsRead (mainRun wDemo ["node", "init.js", "demo", "A demo repo", "/gh"]
      { inputs := ["y", "n", "y", "n", "y", "y", "y"], dirs := ["/gh/demo"],
        files := [("/gh/demo/README.md", c)], trace := [] }).2 "/gh/demo/.nojekyll"
      = some (replacedContent "" "demo" "A demo repo") := by
  have hcreator : createGitHubRepository wDemo "demo" "A demo repo"
      { inputs := ["n", "y", "n", "y", "y", "y"], dirs := ["/gh/demo"],
        files := [("/gh/demo/README.md", c)], trace := [.promptE "Start?"] }
      = (.ok (),
         { inputs := ["n", "y", "n", "y", "y", "y"], dirs := ["/gh/demo"],
           files := [("/gh/demo/README.md", c)],
           trace := [.promptE "Start?", .enterCreateGitHubRepositoryE] }) := rfl
  have hclone : gitClone wDemo "demo" "/gh" "/gh/demo"
      { inputs := ["n", "y", "n", "y", "y", "y"], dirs := ["/gh/demo"],
        files := [("/gh/demo/README.md", c)],
        trace := [.promptE "Start?", .enterCreateGitHubRepositoryE] }
      = (.ok true,
         { inputs := ["n", "y", "n", "y", "y", "y"], dirs := ["/gh/demo"],
           files := [("/gh/demo/README.md", c)],
           trace := [.promptE "Start?", .enterCreateGitHubRepositoryE,
             .enterGitCloneE] }) := rfl
  have hconfig : changeGitConfig wDemo "/gh/demo"
      { inputs := ["n", "y", "n", "y", "y", "y"], dirs := ["/gh/demo"],
        files := [("/gh/demo/README.md", c)],
        trace := [.promptE "Start?", .enterCreateGitHubRepositoryE,
          .enterGitCloneE] }
      = (.ok (),
         { inputs := ["y", "n", "y", "y", "y"], dirs := ["/gh/demo"],
           files := [("/gh/demo/README.md", c)],
           trace := [.promptE "Start?", .enterCreateGitHubRepositoryE,
             .enterGitCloneE, .enterChangeGitConfigE,
             .promptE "  Change Git Config?"] }) := rfl
  have ht1 : createTemplateFile
      { fileName := ".gitignore", content := gitignoreContent }
      "/gh/demo" "demo" "A demo repo"
      { inputs := ["y", "n", "y", "y", "y"], dirs := ["/gh/demo"],
        files := [("/gh/demo/README.md", c)],
        trace := [.promptE "Start?", .enterCreateGitHubRepositoryE,
          .enterGitCloneE, .enterChangeGitConfigE,
          .promptE "  Change Git Config?"] }
      = (.ok (),
         { inputs := ["n", "y", "y", "y"], dirs := ["/gh/demo"],
           files := [("/gh/demo/.gitignore",
               replacedContent gitignoreContent "demo" "A demo repo"),
             ("/gh/demo/README.md", c)],
           trace := [.promptE "Start?", .enterCreateGitHubRepositoryE,
             .enterGitCloneE, .enterChangeGitConfigE,
             .promptE "  Change Git Config?",
             .enterCreateTemplateFileE ".gitignore",
             .promptE "Create [.gitignore]?",
             .writeE "/gh/demo/.gitignore"
               (replacedContent gitignoreContent "demo" "A demo repo")] }) := rfl
  have ht2 : createTemplateFile
      { fileName := "README.md", content := readmeContent }
      "/gh/demo" "demo" "A demo repo"
      { inputs := ["n", "y", "y", "y"], dirs := ["/gh/demo"],
        files := [("/gh/demo/.gitignore",
            replacedContent gitignoreContent "demo" "A demo repo"),
          ("/gh/demo/README.md", c)],
        trace := [.promptE "Start?", .enterCreateGitHubRepositoryE,
          .enterGitCloneE, .enterChangeGitConfigE,
          .promptE "  Change Git Config?",
          .enterCreateTemplateFileE ".gitignore",
          .promptE "Create [.gitignore]?",
          .writeE "/gh/demo/.gitignore"
            (replacedContent gitignoreContent "demo" "A demo repo")] }
      = (.ok (),
         { inputs := ["y", "y", "y"], dirs := ["/gh/demo"],
           files := [("/gh/demo/.gitignore",
               replacedContent gitignoreContent "demo" "A demo repo"),
             ("/gh/demo/README.md", c)],
           trace := [.promptE "Start?", .enterCreateGitHubRepositoryE,
             .enterGitCloneE, .enterChangeGitConfigE,
             .promptE "  Change Git Config?",
             .enterCreateTemplateFileE ".gitignore",
             .promptE "Create [.gitignore]?",
             .writeE "/gh/demo/.gitignore"
               (replacedContent gitignoreContent "demo" "A demo repo"),
             .enterCreateTemplateFileE "README.md",
             .promptE "The File [README.md] Is Already Exist. Overwrite It?"] })
      := rfl
  have ht3 : createTemplateFile
      { fileName := "FUNDING.yml", content := fundingContent,
        subDirectory := some ".github" }
      "/gh/demo" "demo" "A demo repo"
      { inputs := ["y", "y", "y"], dirs := ["/gh/demo"],
        files := [("/gh/demo/.gitignore",
            replacedContent gitignoreContent "demo" "A demo repo"),
          ("/gh/demo/README.md", c)],
        trace := [.promptE "Start?", .enterCreateGitHubRepositoryE,
          .enterGitCloneE, .enterChangeGitConfigE,
          .promptE "  Change Git Config?",
          .enterCreateTemplateFileE ".gitignore",
          .promptE "Create [.gitignore]?",
          .writeE "/gh/demo/.gitignore"
            (replacedContent gitignoreContent "demo" "A demo repo"),
          .enterCreateTemplateFileE "README.md",
          .promptE "The File [README.md] Is Already Exist. Overwrite It?"] }
      = (.ok (),
         { inputs := ["y", "y"], dirs := ["/gh/demo/.github", "/gh/demo"],
           files := [("/gh/demo/.github/FUNDING.yml",
               replacedContent fundingContent "demo" "A demo repo"),
             ("/gh/demo/.gitignore",
               replacedContent gitignoreContent "demo" "A demo repo"),
             ("/gh/demo/README.md", c)],
           trace := [.promptE "Start?", .enterCreateGitHubRepositoryE,
             .enterGitCloneE, .enterChangeGitConfigE,
             .promptE "  Change Git Config?",
             .enterCreateTemplateFileE ".gitignore",
             .promptE "Create [.gitignore]?",
             .writeE "/gh/demo/.gitignore"
               (replacedContent gitignoreContent "demo" "A demo repo"),
             .enterCreateTemplateFileE "README.md",
             .promptE "The File [README.md] Is Already Exist. Overwrite It?",
             .enterCreateTemplateFileE "FUNDING.yml",
             .promptE "Create [.github/FUNDING.yml]?",
             .mkdirE "/gh/demo/.github",
             .writeE "/gh/demo/.github/FUNDING.yml"
               (replacedContent fundingContent "demo" "A demo repo")] }) := rfl
  have ht4 : createTemplateFile
      { fileName := "package.json", content := packageJsonContent }
      "/gh/demo" "demo" "A demo repo"
      { inputs := ["y", "y"], dirs := ["/gh/demo/.github", "/gh/demo"],
        files := [("/gh/demo/.github/FUNDING.yml",
            replacedContent fundingContent "demo" "A demo repo"),
          ("/gh/demo/.gitignore",
            replacedContent gitignoreContent "demo" "A demo repo"),
          ("/gh/demo/README.md", c)],
        trace := [.promptE "Start?", .enterCreateGitHubRepositoryE,
          .enterGitCloneE, .enterChangeGitConfigE,
          .promptE "  Change Git Config?",
          .enterCreateTemplateFileE ".gitignore",
          .promptE "Create [.gitignore]?",
          .writeE "/gh/demo/.gitignore"
            (replacedContent gitignoreContent "demo" "A demo repo"),
          .enterCreateTemplateFileE "README.md",
          .promptE "The File [README.md] Is Already Exist. Overwrite It?",
          .enterCreateTemplateFileE "FUNDING.yml",
          .promptE "Create [.github/FUNDING.yml]?",
          .mkdirE "/gh/demo/.github",
          .writeE "/gh/demo/.github/FUNDING.yml"
            (replacedContent fundingContent "demo" "A demo repo")] }
      = (.ok (),
         { inputs := ["y"], dirs := ["/gh/demo/.github", "/gh/demo"],
           files := [("/gh/demo/package.json",
               replacedContent packageJsonContent "demo" "A demo repo"),
             ("/gh/demo/.github/FUNDING.yml",
               replacedContent fundingContent "demo" "A demo repo"),
             ("/gh/demo/.gitignore",
               replacedContent gitignoreContent "demo" "A demo repo"),
             ("/gh/demo/README.md", c)],
           trace := [.promptE "Start?", .enterCreateGitHubRepositoryE,
             .enterGitCloneE, .enterChangeGitConfigE,
             .promptE "  Change Git Config?",
             .enterCreateTemplateFileE ".gitignore",
             .promptE "Create [.gitignore]?",
             .writeE "/gh/demo/.gitignore"
               (replacedContent gitignoreContent "demo" "A demo repo"),
             .enterCreateTemplateFileE "README.md",
             .promptE "The File [README.md] Is Already Exist. Overwrite It?",
             .enterCreateTemplateFileE "FUNDING.yml",
             .promptE "Create [.github/FUNDING.yml]?",
             .mkdirE "/gh/demo/.github",
             .writeE "/gh/demo/.github/FUNDING.yml"
               (replacedContent fundingContent "demo" "A demo repo"),
             .enterCreateTemplateFileE "package.json",
             .promptE "Create [package.json]?",
             .writeE "/gh/demo/package.json"
               (replacedContent packageJsonContent "demo" "A demo repo")] }) := rfl
  have ht5 : createTemplateFile
      { fileName := ".nojekyll", content := "" }
      "/gh/demo" "demo" "A demo repo"
      { inputs := ["y"], dirs := ["/gh/demo/.github", "/gh/demo"],
        files := [("/gh/demo/package.json",
            replacedContent packageJsonContent "demo" "A demo repo"),
          ("/gh/demo/.github/FUNDING.yml",
            replacedContent fundingContent "demo" "A demo repo"),
          ("/gh/demo/.gitignore",
            replacedContent gitignoreContent "demo" "A demo repo"),
          ("/gh/demo/README.md", c)],
        trace := [.promptE "Start?", .enterCreateGitHubRepositoryE,
          .enterGitCloneE, .enterChangeGitConfigE,
          .promptE "  Change Git Config?",
          .enterCreateTemplateFileE ".gitignore",
          .promptE "Create [.gitignore]?",
          .writeE "/gh/demo/.gitignore"
            (replacedContent gitignoreContent "demo" "A demo repo"),
          .enterCreateTemplateFileE "README.md",
          .promptE "The File [README.md] Is Already Exist. Overwrite It?",
          .enterCreateTemplateFileE "FUNDING.yml",
          .promptE "Create [.github/FUNDING.yml]?",
          .mkdirE "/gh/demo/.github",
          .writeE "/gh/demo/.github/FUNDING.yml"
            (replacedContent fundingContent "demo" "A demo repo"),
          .enterCreateTemplateFileE "package.json",
          .promptE "Create [package.json]?",
          .writeE "/gh/demo/package.json"
            (replacedContent packageJsonContent "demo" "A demo repo")] }
      = (.ok (),
         { inputs := [], dirs := ["/gh/demo/.github", "/gh/demo"],
           files := [("/gh/demo/.nojekyll", replacedContent "" "demo" "A demo repo"),
             ("/gh/demo/package.json",
               replacedContent packageJsonContent "demo" "A demo repo"),
             ("/gh/demo/.github/FUNDING.yml",
               replacedContent fundingContent "demo" "A demo repo"),
             ("/gh/demo/.gitignore",
               replacedContent gitignoreContent "demo" "A demo repo"),
             ("/gh/demo/README.md", c)],
           trace := [.promptE "Start?", .enterCreateGitHubRepositoryE,
             .enterGitCloneE, .enterChangeGitConfigE,
             .promptE "  Change Git Config?",
             .enterCreateTemplateFileE ".gitignore",
             .promptE "Create [.gitignore]?",
             .writeE "/gh/demo/.gitignore"
               (replacedContent gitignoreContent "demo" "A demo repo"),
             .enterCreateTemplateFileE "README.md",
             .promptE "The File [README.md] Is Already Exist. Overwrite It?",
             .enterCreateTemplateFileE "FUNDING.yml",
             .promptE "Create [.github/FUNDING.yml]?",
             .mkdirE "/gh/demo/.github",
             .writeE "/gh/demo/.github/FUNDING.yml"
               (replacedContent fundingContent "demo" "A demo repo"),
             .enterCreateTemplateFileE "package.json",
             .promptE "Create [package.json]?",
             .writeE "/gh/demo/package.json"
               (replacedContent packageJsonContent "demo" "A demo repo"),
             .enterCreateTemplateFileE ".nojekyll",
             .promptE "Create [.nojekyll]?",
             .writeE "/gh/demo/.nojekyll"
               (replacedContent "" "demo" "A demo repo")] }) := rfl
  have hname : trimS "demo" = "demo" := rfl
  have hdesc : trimS "A demo repo" = "A demo repo" := rfl
  have htry : trimS "y" = "y" := rfl
  have hroot : ghRootOf wDemo ["node", "init.js", "demo", "A demo repo", "/gh"]
      = "/gh" := rfl
  have hrepo : ghRepoOf wDemo ["node", "init.js", "demo", "A demo repo", "/gh"]
      = "/gh/demo" := rfl
  have hmain : mainRun wDemo ["node", "init.js", "demo", "A demo repo", "/gh"]
      { inputs := ["y", "n", "y", "n", "y", "y", "y"], dirs := ["/gh/demo"],
        files := [("/gh/demo/README.md", c)], trace := [] }
      = (.ok (),
         { inputs := [], dirs := ["/gh/demo/.github", "/gh/demo"],
           files := [("/gh/demo/.nojekyll", replacedContent "" "demo" "A demo repo"),
             ("/gh/demo/package.json",
               replacedContent packageJsonContent "demo" "A demo repo"),
             ("/gh/demo/.github/FUNDING.yml",
               replacedContent fundingContent "demo" "A demo repo"),
             ("/gh/demo/.gitignore",
               replacedContent gitignoreContent "demo" "A demo repo"),
             ("/gh/demo/README.md", c)],
           trace := [.promptE "Start?", .enterCreateGitHubRepositoryE,
             .enterGitCloneE, .enterChangeGitConfigE,
             .promptE "  Change Git Config?",
             .enterCreateTemplateFileE ".gitignore",
             .promptE "Create [.gitignore]?",
             .writeE "/gh/demo/.gitignore"
               (replacedContent gitignoreContent "demo" "A demo repo"),
             .enterCreateTemplateFileE "README.md",
             .promptE "The File [README.md] Is Already Exist. Overwrite It?",
             .enterCreateTemplateFileE "FUNDING.yml",
             .promptE "Create [.github/FUNDING.yml]?",
             .mkdirE "/gh/demo/.github",
             .writeE "/gh/demo/.github/FUNDING.yml"
               (replacedContent fundingContent "demo" "A demo repo"),
             .enterCreateTemplateFileE "package.json",
             .promptE "Create [package.json]?",
             .writeE "/gh/demo/package.json"
               (replacedContent packageJsonContent "demo" "A demo repo"),
             .enterCreateTemplateFileE ".nojekyll",
             .promptE "Create [.nojekyll]?",
             .writeE "/gh/demo/.nojekyll"
               (replacedContent "" "demo" "A demo repo")] }) := by
    simp only [mainRun, List.length_cons, List.length_nil, List.get?, readText,
      emit, Option.getD, hname, hdesc, htry, hroot, hrepo, runTemplates,
      templateFiles]
    simp only [List.nil_append, List.cons_append, Nat.reduceAdd, Nat.reduceLT,
      if_false, ite_false, ne_eq, not_true_eq_false]
    rw [hcreator]
    simp only []
    rw [hclone]
    simp only []
    rw [hconfig]
    simp only []
    rw [ht1]
    simp only []
    rw [ht2]
    simp only []
    rw [ht3]
    simp only []
    rw [ht4]
    simp only []
    rw [ht5]
    simp only [if_true]
  rw [hmain]
  exact ⟨rfl, rfl, rfl, rfl, rfl, rfl, rfl⟩

/-- `executeCommand` only appends to the trace. -/
theorem executeCommand_trace_mono (w : World) (command cwd : String) (st : St) :
    ∃ tr, (executeCommand w command cwd st).2.trace = st.trace ++ tr := by
  by_cases hc : trimS command = ""
  · exact ⟨[], by simp [executeCommand, hc]⟩
  · by_cases hd : trimS cwd = ""
    · exact ⟨[], by simp [executeCommand, hc, hd]⟩
    · rcases hx : w.exec command cwd with ⟨o, e⟩ | ⟨o, e⟩
      · by_cases he : trimS e = ""
        · exact ⟨[.execE command cwd],
            by rw [executeCommand_success_ok w command cwd st o e hc hd hx he]⟩
        · exact ⟨[.execE command cwd],
            by rw [executeCommand_success_err w command cwd st o e hc hd hx he]⟩
      · exact ⟨[.execE command cwd],
          by rw [executeCommand_failure_run w command cwd st o e hc hd hx]⟩

/-- `createGitHubRepository` appends its entry marker first. -/
theorem creator_marker (w : World) (repositoryName description : String) (st : St) :
    ∃ tr, (createGitHubRepository w repositoryName description st).2.trace
      = st.trace ++ (Effect.enterCreateGitHubRepositoryE :: tr) := by
  rcases hg : w.ghToken with _ | tok
  · exact ⟨[], by simp [createGitHubRepository, emit, hg]⟩
  · rcases hh : w.http createRepoUrl with _ | data
    · exact ⟨[.httpE createRepoUrl],
        by simp [createGitHubRepository, emit, hg, hh, List.append_assoc]⟩
    · by_cases hj : w.jsonParses data = true
      · exact ⟨[.httpE createRepoUrl],
          by simp [createGitHubRepository, emit, hg, hh, hj, List.append_assoc]⟩
      · exact ⟨[.httpE createRepoUrl],
          by simp [createGitHubRepository, emit, hg, hh, hj, List.append_assoc]⟩

/-- `gitClone` only appends to the trace. -/
theorem gitClone_trace_mono (w : World) (repositoryName root repoDir : String)
    (st : St) :
    ∃ tr, (gitClone w repositoryName root repoDir st).2.trace = st.trace ++ tr := by
  by_cases hfs : fsStat st repoDir = true
  · exact ⟨[.enterGitCloneE],
      by simp [gitClone, fsStat_emit, fsStat_upd, hfs, emit]⟩
  · rcases hin : st.inputs with _ | ⟨line, rest⟩
    · exact ⟨[.enterGitCloneE, .promptE "  Clone Repo?"],
        by simp [gitClone, fsStat_emit, fsStat_upd, hfs, readText, hin, emit,
          List.append_assoc]⟩
    · by_cases hy : trimS line = "y"
      · obtain ⟨tr', htr'⟩ := executeCommand_trace_mono w
          (gitCloneCommand repositoryName) root
          { st with inputs := rest,
                    trace := st.trace ++ [.enterGitCloneE, .promptE "  Clone Repo?"] }
        refine ⟨[.enterGitCloneE, .promptE "  Clone Repo?"] ++ tr', ?_⟩
        simp only [gitClone, fsStat_emit, fsStat_upd, hfs, Bool.false_eq_true,
          if_false, readText, hin, emit, hy, ne_eq, not_true_eq_false, if_false,
          List.append_assoc, List.cons_append, List.nil_append]
        rcases hec : executeCommand w (gitCloneCommand repositoryName) root
            { st with inputs := rest,
                      trace := st.trace
                        ++ [.enterGitCloneE, .promptE "  Clone Repo?"] }
          with ⟨r, st'⟩
        rw [hec] at htr'
        simp only [] at htr'
        cases r with
        | ok v =>
            simp only []
            split <;> simpa [List.append_assoc] using htr'
        | error e =>
            simp only []
            split
            · simpa [List.append_assoc] using htr'
            · split <;> simpa [List.append_assoc] using htr'
      · exact ⟨[.enterGitCloneE, .promptE "  Clone Repo?"],
          by simp [gitClone, fsStat_emit, fsStat_upd, hfs, readText, hin, emit,
            hy, List.append_assoc]⟩

/-- `changeGitConfig` only appends to the trace. -/
theorem changeGitConfig_trace_mono (w : World) (ghRepoDirectoryPath : String)
    (st : St) :
    ∃ tr, (changeGitConfig w ghRepoDirectoryPath st).2.trace = st.trace ++ tr := by
  rcases hin : st.inputs with _ | ⟨line, rest⟩
  · exact ⟨[.enterChangeGitConfigE, .promptE "  Change Git Config?"],
      by simp [changeGitConfig, readText, hin, emit, List.append_assoc]⟩
  · by_cases hy : trimS line = "y"
    · obtain ⟨tr₁, htr₁⟩ := executeCommand_trace_mono w gitConfigNameCommand
        ghRepoDirectoryPath
        { st with inputs := rest,
                  trace := st.trace
                    ++ [.enterChangeGitConfigE, .promptE "  Change Git Config?"] }
      simp only [changeGitConfig, readText, hin, emit, hy, ne_eq,
        not_true_eq_false, if_false, List.append_assoc, List.cons_append,
        List.nil_append]
      rcases hec₁ : executeCommand w gitConfigNameCommand ghRepoDirectoryPath
          { st with inputs := rest,
                    trace := st.trace
                      ++ [.enterChangeGitConfigE, .promptE "  Change Git Config?"] }
        with ⟨r₁, st₁⟩
      rw [hec₁] at htr₁
      simp only [] at htr₁
      cases r₁ with
      | error e =>
          exact ⟨_, by simp only []; rw [htr₁]; simp only [List.append_assoc]; rfl⟩
      | ok v₁ =>
          simp only []
          obtain ⟨tr₂, htr₂⟩ := executeCommand_trace_mono w gitConfigEmailCommand
            ghRepoDirectoryPath st₁
          rcases hec₂ : executeCommand w gitConfigEmailCommand ghRepoDirectoryPath
              st₁ with ⟨r₂, st₂⟩
          rw [hec₂] at htr₂
          cases r₂ with
          | error e =>
              simp only [] at htr₂
              exact ⟨_, by simp only []; rw [htr₂, htr₁]; simp only [List.append_assoc]; rfl⟩
          | ok v₂ =>
              simp only []
              obtain ⟨tr₃, htr₃⟩ := executeCommand_trace_mono w
                gitConfigListCommand ghRepoDirectoryPath st₂
              rcases hec₃ : executeCommand w gitConfigListCommand
                  ghRepoDirectoryPath st₂ with ⟨r₃, st₃⟩
              rw [hec₃] at htr₃
              cases r₃ with
              | error e =>
                  simp only [] at htr₃
                  exact ⟨_, by simp only []; rw [htr₃, htr₂, htr₁]; simp only [List.append_assoc]; rfl⟩
              | ok v₃ =>
                  simp only [] at htr₃
                  exact ⟨_, by simp only []; rw [htr₃, htr₂, htr₁]; simp only [List.append_assoc]; rfl⟩
    · exact ⟨[.enterChangeGitConfigE, .promptE "  Change Git Config?"],
        by simp [changeGitConfig, readText, hin, emit, hy, List.append_assoc]⟩

/-- `createTemplateFile` only appends to the trace. -/
theorem createTemplateFile_trace_mono (templateFile : TemplateFile)
    (ghRepoDirectoryPath repositoryName description : String) (st : St) :
    ∃ tr, (createTemplateFile templateFile ghRepoDirectoryPath repositoryName
        description st).2.trace = st.trace ++ tr := by
  rcases hin : st.inputs with _ | ⟨line, rest⟩
  · exact ⟨_, by simp only [createTemplateFile, readText, hin, emit, List.append_assoc, List.cons_append, List.nil_append]; rfl⟩
  · by_cases hy : trimS line = "y"
    · by_cases hsub : templateFile.subDirectory.getD "" = ""
      · exact ⟨_, by simp only [createTemplateFile, readText, hin, emit, hy, hsub, ne_eq, not_true_eq_false, if_false, fsWriteFile, List.append_assoc, List.cons_append, List.nil_append]; rfl⟩
      · exact ⟨_, by simp only [createTemplateFile, readText, hin, emit, hy, hsub, ne_eq, not_true_eq_false, if_false, fsWriteFile, fsMkdir, List.append_assoc, List.cons_append, List.nil_append]; rfl⟩
    · exact ⟨_, by simp only [createTemplateFile, readText, hin, emit, hy, ne_eq, not_true_eq_false, if_false, List.append_assoc, List.cons_append, List.nil_append]; rfl⟩

/-- `runTemplates` only appends to the trace. -/
theorem runTemplates_trace_mono (tfs : List TemplateFile)
    (ghRepoDirectoryPath repositoryName description : String) (st : St) :
    ∃ tr, (runTemplates tfs ghRepoDirectoryPath repositoryName description
        st).2.trace = st.trace ++ tr := by
  induction tfs generalizing st with
  | nil => exact ⟨[], by simp [runTemplates]⟩
  | cons tf rest ih =>
      simp only [runTemplates]
      obtain ⟨tr₁, htr₁⟩ := createTemplateFile_trace_mono tf ghRepoDirectoryPath
        repositoryName description st
      rcases hec : createTemplateFile tf ghRepoDirectoryPath repositoryName
          description st with ⟨r, st₁⟩
      rw [hec] at htr₁
      simp only [] at htr₁
      cases r with
      | error e => exact ⟨tr₁, by simp only []; exact htr₁⟩
      | ok v =>
          obtain ⟨tr₂, htr₂⟩ := ih st₁
          exact ⟨tr₁ ++ tr₂, by
            simp only []
            rw [htr₂, htr₁, List.append_assoc]⟩

/-- A successful `executeCommand` recorded exactly one exec effect. -/
theorem executeCommand_ok_trace (w : World) (command cwd : String) (st : St)
    (v : String × String) (st' : St)
    (h : executeCommand w command cwd st = (.ok v, st')) :
    st'.trace = st.trace ++ [.execE command cwd] := by
  by_cases hc : trimS command = ""
  · simp [executeCommand, hc] at h
  · by_cases hd : trimS cwd = ""
    · simp [executeCommand, hc, hd] at h
    · rcases hx : w.exec command cwd with ⟨o, e⟩ | ⟨o, e⟩
      · by_cases he : trimS e = ""
        · rw [executeCommand_success_ok w command cwd st o e hc hd hx he] at h
          rw [← (Prod.mk.injEq _ _ _ _ |>.mp h).2]
        · rw [executeCommand_success_err w command cwd st o e hc hd hx he] at h
          simp at h
      · rw [executeCommand_failure_run w command cwd st o e hc hd hx] at h
        simp at h

/-- C9: at every confirmation site of the orchestrator a prompt is
affirmative exactly when the trimmed input line equals the literal
token `y`; every other trimmed line (the empty one included) declines,
and exactly one input line is consumed per prompt, with no retry. -/
theorem claim_C9 :
    (∀ (message line : String) (rest : List String) (st : St),
        st.inputs = line :: rest →
        readText message st
          = (trimS line, emit (.promptE message) { st with inputs := rest })) ∧
    (∀ (w : World) (repositoryName root repoDir line : String)
        (rest : List String) (st : St),
        st.inputs = line :: rest → fsStat st repoDir = false →
        ((gitClone w repositoryName root repoDir st).1 = .ok false
          ↔ ¬ trimS line = "y")) ∧
    (∀ (tf : TemplateFile) (repo n d line : String) (rest : List String)
        (st : St),
        st.inputs = line :: rest →
        ((((createTemplateFile tf repo n d st).2.trace.drop
            st.trace.length).any isWriteEffect = true) ↔ trimS line = "y")) ∧
    (∀ (w : World) (repoDir line : String) (rest : List String) (st : St),
        st.inputs = line :: rest →
        (((changeGitConfig w repoDir st).1 = .ok () ∧
          ((changeGitConfig w repoDir st).2.trace.drop st.trace.length).any
            isExecEffect = false) ↔ ¬ trimS line = "y")) ∧
    (∀ (w : World) (argv : List String) (line : String) (rest : List String)
        (st : St),
        ¬ argv.length < 4 → st.inputs = line :: rest → st.trace = [] →
        ((Effect.enterCreateGitHubRepositoryE ∈ (mainRun w argv st).2.trace)
          ↔ trimS line = "y")) := by
  refine ⟨?_, ?_, ?_, ?_, ?_⟩
  · intro message line rest st hin
    simp [readText, hin, emit]
  · intro w repositoryName root repoDir line rest st hin hdir
    constructor
    · intro hok
      by_contra hy
      simp only [gitClone, fsStat_emit, fsStat_upd, hdir, Bool.false_eq_true,
        if_false, readText, hin, emit, hy, ne_eq, not_true_eq_false,
        List.append_assoc, List.cons_append, List.nil_append] at hok
      rcases hec : executeCommand w (gitCloneCommand repositoryName) root
          { st with inputs := rest,
                    trace := st.trace
                      ++ [.enterGitCloneE, .promptE "  Clone Repo?"] }
        with ⟨r, st'⟩
      rw [hec] at hok
      cases r with
      | ok v =>
          by_cases hfs : fsStat st' repoDir = true <;> simp [hfs] at hok
      | error e =>
          by_cases hcrr : cloneRethrows repositoryName e = true
          · simp [hcrr] at hok
          · by_cases hfs : fsStat st' repoDir = true <;>
              simp [hcrr, hfs] at hok
    · intro hy
      simp [gitClone, fsStat_emit, fsStat_upd, hdir, readText, hin, emit, hy]
  · intro tf repo n d line rest st hin
    by_cases hy : trimS line = "y"
    · simp only [hy, iff_true]
      by_cases hsub : tf.subDirectory.getD "" = ""
      · simp [createTemplateFile, readText, hin, emit, hy, hsub, fsWriteFile,
          List.append_assoc, List.cons_append, List.nil_append, List.drop_left,
          isWriteEffect]
      · simp [createTemplateFile, readText, hin, emit, hy, hsub, fsWriteFile,
          fsMkdir, List.append_assoc, List.cons_append, List.nil_append,
          List.drop_left, isWriteEffect]
    · simp only [hy, iff_false]
      simp [createTemplateFile, readText, hin, emit, hy, List.append_assoc,
        List.cons_append, List.nil_append, List.drop_left, isWriteEffect]
  · intro w repoDir line rest st hin
    by_cases hy : trimS line = "y"
    · simp only [hy, not_true_eq_false, iff_false]
      rintro ⟨hok, hnx⟩
      simp only [changeGitConfig, readText, hin, emit, hy, ne_eq,
        not_true_eq_false, if_false, List.append_assoc, List.cons_append,
        List.nil_append] at hok hnx
      rcases hec₁ : executeCommand w gitConfigNameCommand repoDir
          { st with inputs := rest,
                    trace := st.trace
                      ++ [.enterChangeGitConfigE, .promptE "  Change Git Config?"] }
        with ⟨r₁, st₁⟩
      rw [hec₁] at hok hnx
      cases r₁ with
      | error e => simp at hok
      | ok v₁ =>
          have ht₁ : st₁.trace = st.trace
              ++ [.enterChangeGitConfigE, .promptE "  Change Git Config?"]
              ++ [.execE gitConfigNameCommand repoDir] := by
            have := executeCommand_ok_trace w gitConfigNameCommand repoDir _ _ _
              hec₁
            simpa [List.append_assoc] using this
          simp only [] at hok hnx
          rcases hec₂ : executeCommand w gitConfigEmailCommand repoDir st₁
            with ⟨r₂, st₂⟩
          obtain ⟨tr₂, htr₂⟩ := executeCommand_trace_mono w gitConfigEmailCommand
            repoDir st₁
          rw [hec₂] at hok hnx htr₂
          simp only [] at htr₂
          cases r₂ with
          | error e => simp at hok
          | ok v₂ =>
              simp only [] at hok hnx
              rcases hec₃ : executeCommand w gitConfigListCommand repoDir st₂
                with ⟨r₃, st₃⟩
              obtain ⟨tr₃, htr₃⟩ := executeCommand_trace_mono w
                gitConfigListCommand repoDir st₂
              rw [hec₃] at hok hnx htr₃
              simp only [] at htr₃
              cases r₃ with
              | error e => simp at hok
              | ok v₃ =>
                  simp only [] at hnx
                  rw [htr₃, htr₂, ht₁] at hnx
                  simp [List.append_assoc, List.drop_left, List.any_append,
                    isExecEffect] at hnx
    · simp only [hy, not_false_eq_true, iff_true]
      constructor
      · simp [changeGitConfig, readText, hin, emit, hy]
      · simp [changeGitConfig, readText, hin, emit, hy, List.append_assoc,
          List.cons_append, List.nil_append, List.drop_left, isExecEffect]
  · intro w argv line rest st hlen hin htrace
    by_cases hy : trimS line = "y"
    · simp only [hy, iff_true]
      simp only [mainRun, hlen, if_false, readText, hin, emit, hy, ne_eq,
        not_true_eq_false]
      rcases hcre : createGitHubRepository w (trimS ((argv.get? 2).getD ""))
          (trimS ((argv.get? 3).getD ""))
          { st with inputs := rest, trace := st.trace ++ [.promptE "Start?"] }
        with ⟨rc, stc⟩
      obtain ⟨trc, htrc⟩ := creator_marker w (trimS ((argv.get? 2).getD ""))
        (trimS ((argv.get? 3).getD ""))
        { st with inputs := rest, trace := st.trace ++ [.promptE "Start?"] }
      rw [hcre] at htrc
      simp only [] at htrc
      cases rc with
      | error e =>
          simp only []
          rw [htrc]
          simp
      | ok u =>
          simp only []
          rcases hgc : gitClone w (trimS ((argv.get? 2).getD ""))
              (ghRootOf w argv) (ghRepoOf w argv) stc with ⟨rg, stg⟩
          obtain ⟨trg, htrg⟩ := gitClone_trace_mono w
            (trimS ((argv.get? 2).getD "")) (ghRootOf w argv) (ghRepoOf w argv)
            stc
          rw [hgc] at htrg
          simp only [] at htrg
          cases rg with
          | error e =>
              simp only []
              rw [htrg, htrc]
              simp
          | ok proceed =>
              simp only []
              cases proceed with
              | false =>
                  simp only [Bool.false_eq_true, if_false]
                  rw [htrg, htrc]
                  simp
              | true =>
                  simp only [if_true]
                  rcases hcc : changeGitConfig w (ghRepoOf w argv) stg
                    with ⟨rcg, stcg⟩
                  obtain ⟨trcg, htrcg⟩ := changeGitConfig_trace_mono w
                    (ghRepoOf w argv) stg
                  rw [hcc] at htrcg
                  simp only [] at htrcg
                  cases rcg with
                  | error e =>
                      simp only []
                      rw [htrcg, htrg, htrc]
                      simp
                  | ok u₂ =>
                      simp only []
                      rcases hrt : runTemplates templateFiles (ghRepoOf w argv)
                          (trimS ((argv.get? 2).getD ""))
                          (trimS ((argv.get? 3).getD "")) stcg with ⟨rr, str⟩
                      obtain ⟨trt, htrt⟩ := runTemplates_trace_mono templateFiles
                        (ghRepoOf w argv) (trimS ((argv.get? 2).getD ""))
                        (trimS ((argv.get? 3).getD "")) stcg
                      rw [hrt] at htrt
                      simp only [] at htrt
                      cases rr with
                      | error e =>
                          simp only []
                          rw [htrt, htrcg, htrg, htrc]
                          simp
                      | ok u₃ =>
                          simp only []
                          rw [htrt, htrcg, htrg, htrc]
                          simp
    · simp only [hy, iff_false]
      simp [mainRun, hlen, readText, hin, emit, hy, htrace]

/-- Witness for C9 at concrete prompts and inputs. -/
theorem claim_C9_witness :
    readText "Start?" { stEmpty with inputs := [" y "] }
      = (trimS " y ", emit (.promptE "Start?") { stEmpty with inputs := [] }) ∧
    ((gitClone wDemo "demo" "/gh" "/gh/demo"
        { stEmpty with inputs := ["n"] }).1 = .ok false
      ↔ ¬ trimS "n" = "y") ∧
    ((((createTemplateFile
          { fileName := ".gitignore", content := gitignoreContent }
          "/gh/demo" "demo" "A demo repo"
          { stEmpty with inputs := ["y"] }).2.trace.drop
        ({ stEmpty with inputs := ["y"] } : St).trace.length).any
        isWriteEffect = true) ↔ trimS "y" = "y") ∧
    (((changeGitConfig wDemo "/gh/demo" { stEmpty with inputs := ["n"] }).1
        = .ok () ∧
      ((changeGitConfig wDemo "/gh/demo"
          { stEmpty with inputs := ["n"] }).2.trace.drop
        ({ stEmpty with inputs := ["n"] } : St).trace.length).any
        isExecEffect = false) ↔ ¬ trimS "n" = "y") ∧
    ((Effect.enterCreateGitHubRepositoryE ∈
        (mainRun wDemo ["node", "init.js", "demo", "A demo repo"]
          { stEmpty with inputs := ["y"] }).2.trace) ↔ trimS "y" = "y") := by
  obtain ⟨h1, h2, h3, h4, h5⟩ := claim_C9
  exact ⟨h1 "Start?" " y " [] _ rfl,
    h2 wDemo "demo" "/gh" "/gh/demo" "n" [] _ rfl (by decide),
    h3 _ "/gh/demo" "demo" "A demo repo" "y" [] _ rfl,
    h4 wDemo "/gh/demo" "n" [] _ rfl,
    h5 wDemo _ "y" [] _ (by decide) rfl rfl⟩
